import Mathlib

/-!
# cursed_int: the bounds-checked array accessor and its drivers

A shallow embedding of `cursed_integer.cpp` and `old_flawed_integers.cpp`.

* `my_int` / `int` values are `Int`s in `[-2^31, 2^31)`, `my_uint` / `unsigned int`
  values are `Nat`s below `2^32`; conversions and wrapping are explicit.
* A run is a function from the machine state (global arrays, the lines written
  to `std::cout`, and a log of the indices handed to `at`) to a result and a
  new state.  A result is a value, a thrown C++ exception, or an overflow trap.
* Signed addition is a parameter of the model: `OverflowMode.wrap` is `-fwrapv`,
  `OverflowMode.trap` is `-ftrapv`.
-/

namespace CursedInt

/-! ## Machine integers -/

/-- Value of `std::numeric_limits<int>::max()`. -/
def int_max : Int := 2147483647

/-- Value of `std::numeric_limits<int>::min()`. -/
def int_min : Int := -2147483648

/-- Membership in the range of a 32-bit signed integer. -/
def InInt32 (x : Int) : Prop := int_min ≤ x ∧ x ≤ int_max

instance (x : Int) : Decidable (InInt32 x) := by
  unfold InInt32; exact inferInstance

/-- Two's-complement reduction of a mathematical integer to 32-bit signed. -/
def wrap32 (x : Int) : Int := (x + 2147483648) % 4294967296 - 2147483648

/-- Conversion of a signed 32-bit value to `unsigned int` (reduction modulo `2^32`). -/
def to_unsigned (x : Int) : Nat := (x % 4294967296).toNat

/-! ## Results, output and state -/

/-- Exceptions of the C++ standard library that occur in the programs. -/
inductive CppException where
  | invalid_argument (what : String)
  | out_of_range (what : String)
  deriving DecidableEq, Repr

/-- Abnormal ways for a run to stop: a C++ exception in flight, or the abort
raised by a trapping signed overflow. -/
inductive Fault where
  | thrown (e : CppException)
  | trapped
  deriving DecidableEq, Repr

deriving instance DecidableEq for Except

/-- One item streamed into `std::cout`: a string literal or a number. -/
inductive Tok where
  | str (s : String)
  | num (n : Int)
  deriving DecidableEq, Repr

/-- A line of output: the items streamed before one `std::endl`. -/
abbrev Line := List Tok

/-- Machine state: the globals of the translation unit, the lines written to
`std::cout` so far, and the indices passed to the checked element access `at`. -/
structure Machine (G : Type) where
  globals : G
  out : List Line
  reads : List Nat

/-- A run of a C++ function body. -/
def Prog (G : Type) (α : Type) : Type := Machine G → Except Fault α × Machine G

/-- Sequencing: the second part runs only if the first returned normally. -/
def Prog.bind {G α β : Type} (p : Prog G α) (f : α → Prog G β) : Prog G β :=
  fun m =>
    match p m with
    | (Except.ok x, m1) => f x m1
    | (Except.error e, m1) => (Except.error e, m1)

instance {G : Type} : Monad (Prog G) where
  pure x := fun m => (Except.ok x, m)
  bind := Prog.bind

/-- Statement `throw e;`. -/
def throwCpp {G α : Type} (e : CppException) : Prog G α :=
  fun m => (Except.error (Fault.thrown e), m)

/-- Statement `std::cout << ... << std::endl;`. -/
def println {G : Type} (l : Line) : Prog G Unit :=
  fun m => (Except.ok (), { m with out := m.out ++ [l] })

/-- Block `try { body } catch(...) { handler }`: every C++ exception is caught,
an overflow trap is not an exception and ends the run. -/
def tryCatchAll {G α : Type} (body : Prog G α) (handler : Prog G α) : Prog G α :=
  fun m =>
    match body m with
    | (Except.error (Fault.thrown _), m1) => handler m1
    | r => r

/-- Treatment of signed overflow. -/
inductive OverflowMode where
  | wrap
  | trap
  deriving DecidableEq, Repr

/-- Signed 32-bit addition `x + y` under the chosen overflow treatment. -/
def add32 {G : Type} (mode : OverflowMode) (x y : Int) : Prog G Int :=
  match mode with
  | OverflowMode.wrap => pure (wrap32 (x + y))
  | OverflowMode.trap =>
    if InInt32 (x + y) then pure (x + y) else fun m => (Except.error Fault.trapped, m)

/-- Lines a run appends to the output of the state it starts from. -/
def emitted {G α : Type} (p : Prog G α) (m : Machine G) : List Line :=
  (p m).2.out.drop m.out.length

/-- The value a line prints, when the line consists of a number alone. -/
def line_value : Line → Option Int
  | [Tok.num n] => some n
  | _ => none

/-- The first value printed: the number on the first output line that consists
of a number alone. -/
def first_value (out : List Line) : Option Int :=
  out.findSome? line_value

/-! ## cursed_integer.cpp -/

namespace CursedInteger

/-- Constant `array_size`. -/
def array_size : Int := 200

/-- Globals of `cursed_integer.cpp`: the array `a`. -/
structure Globals where
  a : List Int

/-- Checked element access `a.at(index)`. -/
def a_at (index : Nat) : Prog Globals Int :=
  fun m =>
    match m.globals.a[index]? with
    | some v => (Except.ok v, { m with reads := m.reads ++ [index] })
    | none =>
      (Except.error (Fault.thrown (CppException.out_of_range "array::at")),
        { m with reads := m.reads ++ [index] })

/-- Function `internal_get(my_uint index)`. -/
def internal_get (index : Nat) : Prog Globals Int := do
  if index < to_unsigned array_size then
    println [Tok.str "Trying to read array at index=", Tok.num index]
    a_at index
  else
    return 0

/-- Function `safe_get_from_array(my_int index)`. -/
def safe_get_from_array (index : Int) : Prog Globals Int := do
  if index ≥ 0 ∧ index < array_size then
    internal_get (to_unsigned index)
  else
    return 0

/-- Function `curse(my_int b)`. -/
def curse (mode : OverflowMode) (b : Int) : Prog Globals Unit := do
  if b < 0 then throwCpp (CppException.invalid_argument "argument is too low")
  let b100 ← add32 mode b 100
  println [Tok.str "b+100 is ", Tok.num b100]
  if b100 > 101 then throwCpp (CppException.invalid_argument "argument is too high")

/-- Function `curse2(my_int b)`. -/
def curse2 (mode : OverflowMode) (b : Int) : Prog Globals Unit := do
  let b100 ← add32 mode b (int_max - 3)
  println [Tok.str "overflown number is ", Tok.num b100]

/-- Function `print_array_at(my_int b)`. -/
def print_array_at (b : Int) : Prog Globals Unit := do
  let v ← safe_get_from_array b
  println [Tok.num v]

/-- Function `crash_with_cursed_integer(my_int b)`. -/
def crash_with_cursed_integer (mode : OverflowMode) (b : Int) : Prog Globals Unit := do
  println [Tok.str "Cursing ", Tok.num b, Tok.str " with undefined behavior:"]
  curse mode b
  println [Tok.str "Using cursed number for array access:"]
  let v ← safe_get_from_array b
  println [Tok.num v]

/-- Function `crash_with_cursed_integer2(my_int b)`. -/
def crash_with_cursed_integer2 (mode : OverflowMode) (b : Int) : Prog Globals Unit := do
  println [Tok.str "Cursing2 ", Tok.num b, Tok.str " with undefined behavior:"]
  curse2 mode b
  println [Tok.str "Using cursed number for array access:"]
  if b > 0 then
    let v ← safe_get_from_array b
    println [Tok.num v]

/-- Function `crash_with_cursed_sanitization(my_int b)`. -/
def crash_with_cursed_sanitization (mode : OverflowMode) (b : Int) : Prog Globals Unit := do
  println [Tok.str "Insanitizing ", Tok.num b, Tok.str ":"]
  if b < 0 then return
  let b_plus_100 ← add32 mode b 100
  println [Tok.str "b+100 is ", Tok.num b_plus_100]
  if b_plus_100 > 101 then return
  println [Tok.str "Using cursed number for array access:"]
  let v ← safe_get_from_array b
  println [Tok.num v]

/-- Loop `for(int i=0;i<array_size;++i){ a[i]=i+1; }` of `main`. -/
def init_array : Prog Globals Unit :=
  fun m =>
    (Except.ok (),
      { m with globals :=
        { a := (List.range array_size.toNat).foldl (fun arr i => arr.set i ((i : Int) + 1))
            m.globals.a } })

/-- The line `"Usage: OptimizationTest " << std::numeric_limits<my_int>::max()`. -/
def usage_line : Line := [Tok.str "Usage: OptimizationTest ", Tok.num int_max]

/-- Function `main(int argc, char** argv)`.  `argv` lists all `argc` arguments,
the program name first.  The library parser `std::stoll` is a parameter: it
returns the parsed 64-bit value or throws.  The result is the exit status; an
exception that leaves `main` is the result `Fault.thrown`. -/
def main (mode : OverflowMode) (stoll : String → Except CppException Int)
    (argv : List String) : Prog Globals Int := do
  if argv.length ≠ 2 then
    println usage_line
    return 1
  match stoll (argv.getD 1 "") with
  | Except.error (CppException.invalid_argument _) =>
    println usage_line
    return 1
  | Except.error e => throwCpp e
  | Except.ok v =>
    let b : Int := wrap32 v
    init_array
    tryCatchAll
      (do
        print_array_at b
        crash_with_cursed_integer2 mode b
        crash_with_cursed_integer mode b
        crash_with_cursed_sanitization mode b
        println [Tok.str "Didn't crash! Use GCC 12 or later with -O2 or higher"])
      (println [Tok.str "Acceptable outcome, caught exception."])
    return 0

/-- State at program start: the zero-initialised array, nothing printed. -/
def initial : Machine Globals :=
  { globals := { a := List.replicate array_size.toNat 0 }, out := [], reads := [] }

/-- Relation between the state before and after a run that leaves the globals
alone, only appends output, and passes only indices below 200 to `at`. -/
def Extends (m m1 : Machine Globals) : Prop :=
  m1.globals = m.globals ∧ (∃ ls, m1.out = m.out ++ ls) ∧
    ∃ rs, m1.reads = m.reads ++ rs ∧ ∀ n ∈ rs, n < 200

/-- Runs that extend the state, whatever their result. -/
def Mono {α : Type} (p : Prog Globals α) : Prop :=
  ∀ m, Extends m (p m).2

/-- Runs that, on a 200-element array, return normally and extend the state. -/
def Tidy {α : Type} (p : Prog Globals α) : Prop :=
  ∀ m, m.globals.a.length = 200 → (∃ x, (p m).1 = Except.ok x) ∧ Extends m (p m).2

end CursedInteger

/-! ## old_flawed_integers.cpp -/

namespace OldFlawed

/-- Constant `array_size`. -/
def array_size : Int := 200

/-- Globals of `old_flawed_integers.cpp`: the arrays `a` and `a2`. -/
structure Globals where
  a : List Int
  a2 : List Int

/-- Checked element access `a2.at(index)`. -/
def a2_at (index : Nat) : Prog Globals Int :=
  fun m =>
    match m.globals.a2[index]? with
    | some v => (Except.ok v, { m with reads := m.reads ++ [index] })
    | none =>
      (Except.error (Fault.thrown (CppException.out_of_range "array::at")),
        { m with reads := m.reads ++ [index] })

/-- Function `internal_get(unsigned int index)`. -/
def internal_get (index : Nat) : Prog Globals Int := do
  if index < to_unsigned array_size then
    println [Tok.str "Trying to read array at index=", Tok.num index]
    a2_at index
  else
    return 0

/-- Function `safe_get_from_array(int index)`. -/
def safe_get_from_array (index : Int) : Prog Globals Int := do
  if index ≥ 0 ∧ index < array_size then
    internal_get (to_unsigned index)
  else
    return 0

/-- Function `some_function_without_sanitization(int b)`. -/
def some_function_without_sanitization (mode : OverflowMode) (b : Int) : Prog Globals Unit := do
  let c ← add32 mode b 1
  println [Tok.str "Going to get from array at ", Tok.num c]
  let v ← safe_get_from_array c
  println [Tok.num v]

/-- Function `some_function_with_sanitization(int b)`. -/
def some_function_with_sanitization (mode : OverflowMode) (b : Int) : Prog Globals Unit := do
  if b < 0 then return
  let c ← add32 mode b 1
  println [Tok.str "Going to get from array at ", Tok.num c]
  let v ← safe_get_from_array c
  println [Tok.num v]

/-- Function `inadvertent_range_check(unsigned int b)`. -/
def inadvertent_range_check (b : Nat) : Prog Globals Unit := do
  if b ≥ 2 ^ 31 then
    throwCpp (CppException.invalid_argument "Negative numbers are not allowed")
  let v := b
  println [Tok.str "inadvertent_range_check: ", Tok.num v]

/-- Function `inadvertent_range_check2(unsigned int b)`. -/
def inadvertent_range_check2 (b : Nat) : Prog Globals Unit := do
  if b ≥ 2 ^ 31 then
    throwCpp (CppException.invalid_argument "Unsigned number is too large")
  println [Tok.str "inadvertent_range_check: ", Tok.num b]

/-- Function `unobviously_sanitized(int b)`. -/
def unobviously_sanitized (mode : OverflowMode) (b : Int) : Prog Globals Unit := do
  inadvertent_range_check2 (to_unsigned b)
  let c ← add32 mode b 1
  println [Tok.str "Going to get from array at ", Tok.num c]
  let v ← safe_get_from_array c
  println [Tok.num v]

/-- Function `curse(int b)`. -/
def curse (mode : OverflowMode) (b : Int) : Prog Globals Unit := do
  if b < 0 then
    println [Tok.str "magic1"]
    throwCpp (CppException.invalid_argument "Whatever")
  let b100 ← add32 mode b 100
  println [Tok.str "b+100 is ", Tok.num b100]
  if b100 > 110 then
    println [Tok.str "magic2"]
    throwCpp (CppException.invalid_argument "Whatever")

/-- Function `cursed_int_experiment(int b)`. -/
def cursed_int_experiment (mode : OverflowMode) (b : Int) : Prog Globals Unit := do
  println [Tok.str "Cursing ", Tok.num b]
  if b < 0 then throwCpp (CppException.invalid_argument "bad argument")
  let b_plus_100 ← add32 mode b 100
  println [Tok.str "b+100 is ", Tok.num b_plus_100]
  if b_plus_100 > 101 then throwCpp (CppException.invalid_argument "b_plus_100>101")
  let v ← safe_get_from_array b
  println [Tok.num v]

/-- Function `cursed_int_experiment_modular(int b)`. -/
def cursed_int_experiment_modular (mode : OverflowMode) (b : Int) : Prog Globals Unit := do
  println [Tok.str "Cursing ", Tok.num b]
  curse mode b
  let v ← safe_get_from_array b
  println [Tok.num v]

/-- Function `cursed_int_experiment_returns(int b)`. -/
def cursed_int_experiment_returns (mode : OverflowMode) (b : Int) : Prog Globals Unit := do
  println [Tok.str "Cursing ", Tok.num b]
  if b < 0 then return
  let b_plus_100 ← add32 mode b 100
  println [Tok.str "b+100 is ", Tok.num b_plus_100]
  if b_plus_100 > 101 then return
  let v ← safe_get_from_array b
  println [Tok.num v]

/-- Loop `for(int i=0;i<array_size;++i){ a[i]=i; }` of `main`. -/
def init_array : Prog Globals Unit :=
  fun m =>
    (Except.ok (),
      { m with globals :=
        { m.globals with
          a := (List.range array_size.toNat).foldl (fun arr i => arr.set i (i : Int))
            m.globals.a } })

/-- The line `"Usage: " << argv[0] << " 2147483647"`. -/
def usage_line (argv : List String) : Line :=
  [Tok.str "Usage: ", Tok.str (argv.getD 0 ""), Tok.str " 2147483647"]

/-- Function `main(int argc, char** argv)`, with the conventions of
`CursedInteger.main`. -/
def main (mode : OverflowMode) (stoll : String → Except CppException Int)
    (argv : List String) : Prog Globals Int := do
  if argv.length ≠ 2 then
    println (usage_line argv)
    return 1
  match stoll (argv.getD 1 "") with
  | Except.error (CppException.invalid_argument _) =>
    println (usage_line argv)
    return 1
  | Except.error e => throwCpp e
  | Except.ok v =>
    let b : Int := wrap32 v
    init_array
    tryCatchAll
      (do
        cursed_int_experiment_modular mode b
        cursed_int_experiment_returns mode b
        cursed_int_experiment mode b
        println [Tok.str "Without sanitization:"]
        some_function_without_sanitization mode b
        println [Tok.str "With sanitization:"]
        unobviously_sanitized mode b
        println [Tok.str "Didn't crash!"])
      (println [Tok.str "Caught exception."])
    return 0

/-- State at program start: both arrays zero-initialised, nothing printed. -/
def initial : Machine Globals :=
  { globals :=
      { a := List.replicate array_size.toNat 0, a2 := List.replicate array_size.toNat 0 },
    out := [], reads := [] }

end OldFlawed

/-! ## The library parser -/

/-- Leading white space (as classified by `isspace`) is skipped. -/
def skip_space : List Char → List Char
  | [] => []
  | c :: cs =>
    if c = ' ' ∨ (9 ≤ c.toNat ∧ c.toNat ≤ 13) then skip_space cs else c :: cs

/-- Values of the decimal digits at the front of the text. -/
def digit_run : List Char → List Nat
  | [] => []
  | c :: cs => if 48 ≤ c.toNat ∧ c.toNat ≤ 57 then (c.toNat - 48) :: digit_run cs else []

/-- A model of `std::stoll(str)` in base 10, for concrete runs: white space is
skipped, an optional sign and the longest run of digits are read;
`invalid_argument` if there is no digit, `out_of_range` if the value does not
fit a 64-bit signed integer. -/
def stoll_base10 (s : String) : Except CppException Int :=
  let cs := skip_space s.data
  let signed : Bool × List Nat :=
    match cs with
    | '-' :: r => (true, digit_run r)
    | '+' :: r => (false, digit_run r)
    | r => (false, digit_run r)
  if signed.2 = [] then Except.error (CppException.invalid_argument "stoll")
  else
    let n : Int := (signed.2.foldl (fun acc d => 10 * acc + d) 0 : Nat)
    let v : Int := if signed.1 then -n else n
    if v < -9223372036854775808 ∨ v > 9223372036854775807 then
      Except.error (CppException.out_of_range "stoll")
    else Except.ok v

end CursedInt


/-! ## Auxiliary facts -/

namespace CursedInt

theorem to_unsigned_of_nonneg (i : Int) (h0 : 0 ≤ i) (h1 : i < 4294967296) :
    to_unsigned i = i.toNat := by
  unfold to_unsigned
  rw [Int.emod_eq_of_lt h0 h1]

theorem wrap32_of_in (x : Int) (h : InInt32 x) : wrap32 x = x := by
  unfold InInt32 int_min int_max at h
  unfold wrap32
  rw [Int.emod_eq_of_lt (by omega) (by omega)]
  omega

theorem wrap32_in (x : Int) : InInt32 (wrap32 x) := by
  unfold InInt32 int_min int_max wrap32
  omega

/-- Writing `f i` at every position `i < n`, in increasing order. -/
theorem foldl_set_getElem? (f : Nat → Int) (n : Nat) (arr : List Int) (hn : n ≤ arr.length)
    (j : Nat) :
    ((List.range n).foldl (fun acc i => acc.set i (f i)) arr)[j]? =
      if j < n then some (f j) else arr[j]? := by
  induction n with
  | zero => simp
  | succ k ih =>
    have hk : k ≤ arr.length := by omega
    have hlen : ((List.range k).foldl (fun acc i => acc.set i (f i)) arr).length
        = arr.length := by
      clear ih
      induction k with
      | zero => simp
      | succ q ihq => simp [List.range_succ, List.foldl_append, ihq (by omega) (by omega)]
    rw [List.range_succ, List.foldl_append]
    simp only [List.foldl_cons, List.foldl_nil]
    rw [List.getElem?_set, ih hk]
    by_cases hj : k = j
    · subst hj
      simp [hlen]
      omega
    · simp [hj]
      by_cases h1 : j < k
      · have h2 : j < k + 1 := by omega
        simp [h1, h2]
      · have h2 : ¬ j < k + 1 := by omega
        simp [h1, h2]

theorem foldl_set_length (f : Nat → Int) (n : Nat) (arr : List Int) :
    ((List.range n).foldl (fun acc i => acc.set i (f i)) arr).length = arr.length := by
  induction n with
  | zero => simp
  | succ q ihq => simp [List.range_succ, List.foldl_append, ihq]

theorem foldl_set_eq_map (f : Nat → Int) (arr : List Int) :
    (List.range arr.length).foldl (fun acc i => acc.set i (f i)) arr =
      (List.range arr.length).map f := by
  apply List.ext_getElem?
  intro j
  rw [foldl_set_getElem? f arr.length arr (le_refl _) j]
  by_cases hj : j < arr.length
  · simp [hj, List.getElem?_range]
  · have h1 : arr[j]? = none := List.getElem?_eq_none (by omega)
    have h2 : (List.range arr.length)[j]? = none :=
      List.getElem?_eq_none (by simp; omega)
    simp [hj, h1, h2]

theorem to_unsigned_200 : to_unsigned 200 = 200 := by decide

namespace CursedInteger

theorem internal_get_of_lt (n : Nat) (m : Machine Globals) (v : Int) (h : n < 200)
    (hv : m.globals.a[n]? = some v) :
    internal_get n m =
      (Except.ok v,
        { m with
          out := m.out ++ [[Tok.str "Trying to read array at index=", Tok.num n]],
          reads := m.reads ++ [n] }) := by
  simp [internal_get, array_size, to_unsigned_200, h, bind, Prog.bind, println, a_at, hv]

theorem internal_get_of_ge (n : Nat) (m : Machine Globals) (h : 200 ≤ n) :
    internal_get n m = (Except.ok 0, m) := by
  have h1 : ¬ n < 200 := by omega
  simp [internal_get, array_size, to_unsigned_200, h1, pure]

theorem safe_get_of_in (i : Int) (m : Machine Globals) (v : Int) (h0 : 0 ≤ i) (h1 : i < 200)
    (hv : m.globals.a[i.toNat]? = some v) :
    safe_get_from_array i m =
      (Except.ok v,
        { m with
          out := m.out ++ [[Tok.str "Trying to read array at index=", Tok.num i]],
          reads := m.reads ++ [i.toNat] }) := by
  have hu : to_unsigned i = i.toNat := to_unsigned_of_nonneg i h0 (by omega)
  have hn : i.toNat < 200 := by omega
  have hc : ((i.toNat : Nat) : Int) = i := Int.toNat_of_nonneg h0
  simp only [safe_get_from_array, array_size, ge_iff_le, h0, h1, and_self, if_true, hu]
  rw [internal_get_of_lt i.toNat m v hn hv, hc]

theorem safe_get_of_out (i : Int) (m : Machine Globals) (h : ¬ (0 ≤ i ∧ i < 200)) :
    safe_get_from_array i m = (Except.ok 0, m) := by
  simp only [safe_get_from_array, array_size, ge_iff_le, h, if_false]
  rfl

end CursedInteger

namespace OldFlawed

theorem old_internal_get_of_lt (n : Nat) (m : Machine Globals) (v : Int) (h : n < 200)
    (hv : m.globals.a2[n]? = some v) :
    internal_get n m =
      (Except.ok v,
        { m with
          out := m.out ++ [[Tok.str "Trying to read array at index=", Tok.num n]],
          reads := m.reads ++ [n] }) := by
  simp [internal_get, array_size, to_unsigned_200, h, bind, Prog.bind, println, a2_at, hv]

theorem old_internal_get_of_ge (n : Nat) (m : Machine Globals) (h : 200 ≤ n) :
    internal_get n m = (Except.ok 0, m) := by
  have h1 : ¬ n < 200 := by omega
  simp [internal_get, array_size, to_unsigned_200, h1, pure]

theorem old_safe_get_of_in (i : Int) (m : Machine Globals) (v : Int) (h0 : 0 ≤ i) (h1 : i < 200)
    (hv : m.globals.a2[i.toNat]? = some v) :
    safe_get_from_array i m =
      (Except.ok v,
        { m with
          out := m.out ++ [[Tok.str "Trying to read array at index=", Tok.num i]],
          reads := m.reads ++ [i.toNat] }) := by
  have hu : to_unsigned i = i.toNat := to_unsigned_of_nonneg i h0 (by omega)
  have hn : i.toNat < 200 := by omega
  have hc : ((i.toNat : Nat) : Int) = i := Int.toNat_of_nonneg h0
  simp only [safe_get_from_array, array_size, ge_iff_le, h0, h1, and_self, if_true, hu]
  rw [old_internal_get_of_lt i.toNat m v hn hv, hc]

theorem old_safe_get_of_out (i : Int) (m : Machine Globals) (h : ¬ (0 ≤ i ∧ i < 200)) :
    safe_get_from_array i m = (Except.ok 0, m) := by
  simp only [safe_get_from_array, array_size, ge_iff_le, h, if_false]
  rfl

end OldFlawed

end CursedInt

/-! ## The accessor: contract, initial content, safety, frame -/

namespace CursedInt

/-- C1: for every 32-bit signed index and every content of the 200-element
backing array, `safe_get_from_array index` returns the array element at position
`index` when `0 ≤ index < 200` and returns 0 otherwise, in particular at -1, 200,
2147483647 and -2147483648; this holds for the accessor of both source files
(which reads `a` in `cursed_integer.cpp` and `a2` in `old_flawed_integers.cpp`). -/
theorem safe_get_from_array_contract (index : Int) (_hi : InInt32 index)
    (m : Machine CursedInteger.Globals) (hm : m.globals.a.length = 200)
    (m2 : Machine OldFlawed.Globals) (hm2 : m2.globals.a2.length = 200) :
    ((0 ≤ index ∧ index < 200) →
      Option.map Except.ok m.globals.a[index.toNat]?
          = some (CursedInteger.safe_get_from_array index m).1 ∧
      Option.map Except.ok m2.globals.a2[index.toNat]?
          = some (OldFlawed.safe_get_from_array index m2).1) ∧
    (¬ (0 ≤ index ∧ index < 200) →
      (CursedInteger.safe_get_from_array index m).1 = Except.ok 0 ∧
      (OldFlawed.safe_get_from_array index m2).1 = Except.ok 0) ∧
    (∀ j ∈ [-1, 200, 2147483647, -2147483648],
      (CursedInteger.safe_get_from_array j m).1 = Except.ok 0 ∧
      (OldFlawed.safe_get_from_array j m2).1 = Except.ok 0) := by
  refine ⟨?_, ?_, ?_⟩
  · rintro ⟨h0, h1⟩
    have hn : index.toNat < 200 := by omega
    obtain ⟨v, hv⟩ : ∃ v, m.globals.a[index.toNat]? = some v :=
      ⟨m.globals.a[index.toNat], List.getElem?_eq_getElem (by omega)⟩
    obtain ⟨v2, hv2⟩ : ∃ v, m2.globals.a2[index.toNat]? = some v :=
      ⟨m2.globals.a2[index.toNat], List.getElem?_eq_getElem (by omega)⟩
    rw [CursedInteger.safe_get_of_in index m v h0 h1 hv,
      OldFlawed.old_safe_get_of_in index m2 v2 h0 h1 hv2, hv, hv2]
    simp
  · intro h
    rw [CursedInteger.safe_get_of_out index m h, OldFlawed.old_safe_get_of_out index m2 h]
    simp
  · intro j hj
    have h : ¬ (0 ≤ j ∧ j < 200) := by
      simp only [List.mem_cons, List.mem_singleton, List.not_mem_nil, or_false] at hj
      omega
    rw [CursedInteger.safe_get_of_out j m h, OldFlawed.old_safe_get_of_out j m2 h]
    simp

/-- Instance of C1 at index 7 on the zero-initialised arrays of both programs. -/
theorem safe_get_from_array_contract_witness :
    InInt32 7 ∧ CursedInteger.initial.globals.a.length = 200 ∧
    OldFlawed.initial.globals.a2.length = 200 ∧
    Option.map Except.ok CursedInteger.initial.globals.a[(7 : Int).toNat]?
      = some (CursedInteger.safe_get_from_array 7 CursedInteger.initial).1 ∧
    Option.map Except.ok OldFlawed.initial.globals.a2[(7 : Int).toNat]?
      = some (OldFlawed.safe_get_from_array 7 OldFlawed.initial).1 :=
  ⟨by decide, by rfl, by rfl,
    (safe_get_from_array_contract 7 (by decide) CursedInteger.initial (by rfl)
      OldFlawed.initial (by rfl)).1 (by decide)⟩

/-- C2: in `cursed_integer.cpp`, once the initialisation loop of `main` has run
on the 200-element array, the array holds 1, 2, ..., 200, so for every `i` with
`0 ≤ i < 200` the call `safe_get_from_array i` returns `i + 1`; in particular
index 0 gives 1 and index 199 gives 200. -/
theorem init_array_then_get (m : Machine CursedInteger.Globals)
    (hm : m.globals.a.length = 200) :
    (CursedInteger.init_array m).1 = Except.ok () ∧
    (CursedInteger.init_array m).2.globals.a
      = (List.range 200).map (fun k : Nat => (k : Int) + 1) ∧
    (∀ i : Int, 0 ≤ i → i < 200 →
      (CursedInteger.safe_get_from_array i (CursedInteger.init_array m).2).1
        = Except.ok (i + 1)) ∧
    (CursedInteger.safe_get_from_array 0 (CursedInteger.init_array m).2).1 = Except.ok 1 ∧
    (CursedInteger.safe_get_from_array 199 (CursedInteger.init_array m).2).1
      = Except.ok 200 := by
  have ha : (CursedInteger.init_array m).2.globals.a
      = (List.range 200).map (fun k : Nat => (k : Int) + 1) := by
    have h := foldl_set_eq_map (fun k : Nat => (k : Int) + 1) m.globals.a
    rw [hm] at h
    simpa [CursedInteger.init_array, CursedInteger.array_size] using h
  have hget : ∀ i : Int, 0 ≤ i → i < 200 →
      (CursedInteger.safe_get_from_array i (CursedInteger.init_array m).2).1
        = Except.ok (i + 1) := by
    intro i h0 h1
    have hn : i.toNat < 200 := by omega
    have hv : (CursedInteger.init_array m).2.globals.a[i.toNat]? = some (i + 1) := by
      rw [ha, List.getElem?_map, List.getElem?_range hn]
      simp [Int.toNat_of_nonneg h0]
    rw [CursedInteger.safe_get_of_in i _ (i + 1) h0 h1 hv]
  refine ⟨rfl, ha, hget, ?_, ?_⟩
  · exact hget 0 (by decide) (by decide)
  · exact hget 199 (by decide) (by decide)

/-- Instance of C2 on the zero-initialised array the program starts from. -/
theorem init_array_then_get_witness :
    CursedInteger.initial.globals.a.length = 200 ∧
    (CursedInteger.safe_get_from_array 199
      (CursedInteger.init_array CursedInteger.initial).2).1 = Except.ok 200 :=
  ⟨by rfl, (init_array_then_get CursedInteger.initial (by rfl)).2.2.2.2⟩

/-- C3 (as the code behaves): in `old_flawed_integers.cpp` the initialisation loop
of `main` fills `a` with 0, 1, ..., 199, but the accessor reads `a2`, which the
loop leaves zero-initialised; after the loop `safe_get_from_array 5` returns 0,
not 5. -/
theorem old_init_array_misses_a2 :
    (OldFlawed.init_array OldFlawed.initial).2.globals.a
      = (List.range 200).map (fun k : Nat => (k : Int)) ∧
    (OldFlawed.init_array OldFlawed.initial).2.globals.a2 = List.replicate 200 0 ∧
    (OldFlawed.safe_get_from_array 5 (OldFlawed.init_array OldFlawed.initial).2).1
      = Except.ok 0 ∧
    (OldFlawed.safe_get_from_array 5 (OldFlawed.init_array OldFlawed.initial).2).1
      ≠ Except.ok 5 := by
  have ha : (OldFlawed.init_array OldFlawed.initial).2.globals.a
      = (List.range 200).map (fun k : Nat => (k : Int)) := by
    have h := foldl_set_eq_map (fun k : Nat => (k : Int)) (List.replicate 200 0)
    rw [List.length_replicate] at h
    simpa [OldFlawed.init_array, OldFlawed.initial, OldFlawed.array_size] using h
  have h2 : (OldFlawed.init_array OldFlawed.initial).2.globals.a2 = List.replicate 200 0 := by
    have h3 : (OldFlawed.init_array OldFlawed.initial).2.globals.a2
        = OldFlawed.initial.globals.a2 := rfl
    rw [h3]
    rfl
  have hv : (OldFlawed.init_array OldFlawed.initial).2.globals.a2[(5 : Int).toNat]?
      = some 0 := by
    rw [h2]
    exact List.getElem?_replicate_of_lt (by decide)
  have hg := OldFlawed.old_safe_get_of_in 5 (OldFlawed.init_array OldFlawed.initial).2 0
    (by decide) (by decide) hv
  refine ⟨ha, h2, ?_, ?_⟩
  · rw [hg]
  · rw [hg]; decide

/-- C4: for every value of the 32-bit signed range passed to
`safe_get_from_array` (either file, array of 200 elements), the call returns a
value (the out-of-range failure of `at` does not occur), and every index it
hands to `at` is below 200, the length of the array. -/
theorem safe_get_from_array_reads_in_bounds (index : Int) (_hi : InInt32 index)
    (m : Machine CursedInteger.Globals) (hm : m.globals.a.length = 200)
    (m2 : Machine OldFlawed.Globals) (hm2 : m2.globals.a2.length = 200) :
    ((∃ v, (CursedInteger.safe_get_from_array index m).1 = Except.ok v) ∧
      ∃ rs, (CursedInteger.safe_get_from_array index m).2.reads = m.reads ++ rs ∧
        ∀ n ∈ rs, n < 200 ∧ n < m.globals.a.length) ∧
    ((∃ v, (OldFlawed.safe_get_from_array index m2).1 = Except.ok v) ∧
      ∃ rs, (OldFlawed.safe_get_from_array index m2).2.reads = m2.reads ++ rs ∧
        ∀ n ∈ rs, n < 200 ∧ n < m2.globals.a2.length) := by
  by_cases h : 0 ≤ index ∧ index < 200
  · obtain ⟨h0, h1⟩ := h
    have hn : index.toNat < 200 := by omega
    obtain ⟨v, hv⟩ : ∃ v, m.globals.a[index.toNat]? = some v :=
      ⟨m.globals.a[index.toNat], List.getElem?_eq_getElem (by omega)⟩
    obtain ⟨v2, hv2⟩ : ∃ v, m2.globals.a2[index.toNat]? = some v :=
      ⟨m2.globals.a2[index.toNat], List.getElem?_eq_getElem (by omega)⟩
    rw [CursedInteger.safe_get_of_in index m v h0 h1 hv,
      OldFlawed.old_safe_get_of_in index m2 v2 h0 h1 hv2]
    refine ⟨⟨⟨v, rfl⟩, [index.toNat], rfl, ?_⟩, ⟨⟨v2, rfl⟩, [index.toNat], rfl, ?_⟩⟩
    · intro n hn'
      simp only [List.mem_singleton] at hn'
      omega
    · intro n hn'
      simp only [List.mem_singleton] at hn'
      omega
  · rw [CursedInteger.safe_get_of_out index m h, OldFlawed.old_safe_get_of_out index m2 h]
    exact ⟨⟨⟨0, rfl⟩, [], by simp, by simp⟩, ⟨⟨0, rfl⟩, [], by simp, by simp⟩⟩

/-- Instance of C4 at the largest 32-bit index on the zero-initialised arrays. -/
theorem safe_get_from_array_reads_in_bounds_witness :
    InInt32 2147483647 ∧ CursedInteger.initial.globals.a.length = 200 ∧
    OldFlawed.initial.globals.a2.length = 200 ∧
    ∃ v, (CursedInteger.safe_get_from_array 2147483647 CursedInteger.initial).1
      = Except.ok v :=
  ⟨by decide, by rfl, by rfl,
    (safe_get_from_array_reads_in_bounds 2147483647 (by decide) CursedInteger.initial
      (by rfl) OldFlawed.initial (by rfl)).1.1⟩

/-- C5: `safe_get_from_array` leaves the backing array unchanged for every
index, and two successive calls with the same index return the same value. -/
theorem safe_get_from_array_frame (index : Int) (m : Machine CursedInteger.Globals) :
    (CursedInteger.safe_get_from_array index m).2.globals = m.globals ∧
    (CursedInteger.safe_get_from_array index
        (CursedInteger.safe_get_from_array index m).2).1
      = (CursedInteger.safe_get_from_array index m).1 := by
  by_cases h : 0 ≤ index ∧ index < 200
  · obtain ⟨h0, h1⟩ := h
    cases hv : m.globals.a[index.toNat]? with
    | some v =>
      have key := CursedInteger.safe_get_of_in index m v h0 h1 hv
      have key2 := CursedInteger.safe_get_of_in index
        (CursedInteger.safe_get_from_array index m).2 v h0 h1 (by rw [key]; exact hv)
      rw [key2, key]
      exact ⟨rfl, rfl⟩
    | none =>
      have hu : to_unsigned index = index.toNat := to_unsigned_of_nonneg index h0 (by omega)
      have hn : index.toNat < 200 := by omega
      simp [CursedInteger.safe_get_from_array, CursedInteger.internal_get,
        CursedInteger.array_size, to_unsigned_200, h0, h1, hu, hn, bind, Prog.bind, println,
        CursedInteger.a_at, hv]
  · have key := CursedInteger.safe_get_of_out index m h
    have key2 := CursedInteger.safe_get_of_out index
      (CursedInteger.safe_get_from_array index m).2 h
    rw [key2, key]
    exact ⟨rfl, rfl⟩

end CursedInt

/-! ## Running the programs -/

namespace CursedInt

theorem bind_run {G α β : Type} (p : Prog G α) (f : α → Prog G β) (m : Machine G) :
    (p >>= f) m =
      match p m with
      | (Except.ok x, m1) => f x m1
      | (Except.error e, m1) => (Except.error e, m1) := rfl

theorem pure_run {G α : Type} (x : α) (m : Machine G) :
    (pure x : Prog G α) m = (Except.ok x, m) := rfl

theorem println_run {G : Type} (l : Line) (m : Machine G) :
    println l m = (Except.ok (), { m with out := m.out ++ [l] }) := rfl

theorem throwCpp_run {G α : Type} (e : CppException) (m : Machine G) :
    (throwCpp e : Prog G α) m = (Except.error (Fault.thrown e), m) := rfl

theorem add32_wrap_run {G : Type} (x y : Int) (m : Machine G) :
    (add32 OverflowMode.wrap x y : Prog G Int) m = (Except.ok (wrap32 (x + y)), m) := rfl

theorem add32_trap_run_in {G : Type} (x y : Int) (m : Machine G) (h : InInt32 (x + y)) :
    (add32 OverflowMode.trap x y : Prog G Int) m = (Except.ok (x + y), m) := by
  simp [add32, h, pure]

theorem add32_run_in {G : Type} (mode : OverflowMode) (x y : Int) (m : Machine G)
    (h : InInt32 (x + y)) :
    (add32 mode x y : Prog G Int) m = (Except.ok (x + y), m) := by
  cases mode with
  | wrap => rw [add32_wrap_run, wrap32_of_in _ h]
  | trap => exact add32_trap_run_in x y m h

theorem emitted_of_out {G α : Type} (p : Prog G α) (m : Machine G) (ls : List Line)
    (h : (p m).2.out = m.out ++ ls) : emitted p m = ls := by
  unfold emitted
  rw [h]
  simp

theorem add32_trap_run_out {G : Type} (x y : Int) (m : Machine G) (h : ¬ InInt32 (x + y)) :
    (add32 OverflowMode.trap x y : Prog G Int) m = (Except.error Fault.trapped, m) := by
  simp [add32, h]

namespace CursedInteger

/-- The initialisation loop only replaces the array, by one whose entry `i` is `i + 1`. -/
theorem init_array_run (m : Machine Globals) (hm : m.globals.a.length = 200) :
    ∃ g : Globals, init_array m = (Except.ok (), { m with globals := g }) ∧
      g.a = (List.range 200).map (fun k : Nat => (k : Int) + 1) ∧
      ∀ i : Int, 0 ≤ i → i < 200 → g.a[i.toNat]? = some (i + 1) := by
  have ha : (init_array m).2.globals.a
      = (List.range 200).map (fun k : Nat => (k : Int) + 1) := by
    have h := foldl_set_eq_map (fun k : Nat => (k : Int) + 1) m.globals.a
    rw [hm] at h
    simpa [init_array, array_size] using h
  refine ⟨(init_array m).2.globals, rfl, ha, ?_⟩
  intro i h0 h1
  have hn : i.toNat < 200 := by omega
  rw [ha, List.getElem?_map, List.getElem?_range hn]
  simp [Int.toNat_of_nonneg h0]

/-- With one argument that parses to `v`, `main` is the initialisation loop
followed by the `try` block. -/
theorem main_run_parsed (mode : OverflowMode) (stoll : String → Except CppException Int)
    (argv : List String) (v : Int) (m : Machine Globals)
    (hargc : argv.length = 2) (hparse : stoll (argv.getD 1 "") = Except.ok v) :
    main mode stoll argv m =
      (do
        init_array
        tryCatchAll
          (do
            print_array_at (wrap32 v)
            crash_with_cursed_integer2 mode (wrap32 v)
            crash_with_cursed_integer mode (wrap32 v)
            crash_with_cursed_sanitization mode (wrap32 v)
            println [Tok.str "Didn't crash! Use GCC 12 or later with -O2 or higher"])
          (println [Tok.str "Acceptable outcome, caught exception."])
        pure 0 : Prog Globals Int) m := by
  have h2 : ¬ (argv.length ≠ 2) := by simp [hargc]
  unfold main
  simp only [h2, if_false, hparse, bind_run, pure_run]

end CursedInteger

end CursedInt

/-! ## State extension -/

namespace CursedInt

namespace CursedInteger

theorem extends_refl (m : Machine Globals) : Extends m m :=
  ⟨rfl, ⟨[], by simp⟩, ⟨[], by simp, by simp⟩⟩

theorem extends_trans {m m1 m2 : Machine Globals} (h1 : Extends m m1) (h2 : Extends m1 m2) :
    Extends m m2 := by
  obtain ⟨hg1, ⟨ls1, ho1⟩, ⟨rs1, hr1, hb1⟩⟩ := h1
  obtain ⟨hg2, ⟨ls2, ho2⟩, ⟨rs2, hr2, hb2⟩⟩ := h2
  refine ⟨hg2.trans hg1, ⟨ls1 ++ ls2, ?_⟩, ⟨rs1 ++ rs2, ?_, ?_⟩⟩
  · rw [ho2, ho1, List.append_assoc]
  · rw [hr2, hr1, List.append_assoc]
  · intro n hn
    rcases List.mem_append.mp hn with h | h
    · exact hb1 n h
    · exact hb2 n h

theorem mono_pure {α : Type} (x : α) : Mono (pure x : Prog Globals α) :=
  fun m => extends_refl m

theorem mono_println (l : Line) : Mono (println l : Prog Globals Unit) :=
  fun m => ⟨rfl, ⟨[l], rfl⟩, ⟨[], by simp [println], by simp⟩⟩

theorem mono_throwCpp {α : Type} (e : CppException) : Mono (throwCpp e : Prog Globals α) :=
  fun m => extends_refl m

theorem mono_add32 (mode : OverflowMode) (x y : Int) : Mono (add32 mode x y : Prog Globals Int) := by
  intro m
  cases mode with
  | wrap => exact extends_refl m
  | trap =>
    by_cases h : InInt32 (x + y)
    · rw [add32_trap_run_in x y m h]; exact extends_refl m
    · rw [add32_trap_run_out x y m h]; exact extends_refl m

theorem mono_bind {α β : Type} (p : Prog Globals α) (f : α → Prog Globals β)
    (hp : Mono p) (hf : ∀ x, Mono (f x)) : Mono (p >>= f) := by
  intro m
  have h1 := hp m
  rw [bind_run]
  rcases hpm : p m with ⟨r, m1⟩
  rw [hpm] at h1
  cases r with
  | ok x => exact extends_trans h1 (hf x m1)
  | error e => exact h1

theorem mono_ite {α : Type} (c : Prop) [Decidable c] (p q : Prog Globals α)
    (hp : Mono p) (hq : Mono q) : Mono (if c then p else q) := by
  by_cases h : c
  · simpa [h] using hp
  · simpa [h] using hq

theorem mono_tryCatchAll {α : Type} (p q : Prog Globals α) (hp : Mono p) (hq : Mono q) :
    Mono (tryCatchAll p q) := by
  intro m
  have h1 := hp m
  unfold tryCatchAll
  rcases hpm : p m with ⟨r, m1⟩
  rw [hpm] at h1
  cases r with
  | ok x => exact h1
  | error e =>
    cases e with
    | thrown e => exact extends_trans h1 (hq m1)
    | trapped => exact h1

theorem mono_safe_get (i : Int) : Mono (safe_get_from_array i) := by
  intro m
  by_cases h : 0 ≤ i ∧ i < 200
  · obtain ⟨h0, h1⟩ := h
    have hu : to_unsigned i = i.toNat := to_unsigned_of_nonneg i h0 (by omega)
    have hn : i.toNat < 200 := by omega
    cases hv : m.globals.a[i.toNat]? with
    | some v =>
      rw [safe_get_of_in i m v h0 h1 hv]
      exact ⟨rfl, ⟨_, rfl⟩, ⟨[i.toNat], rfl, by simpa using hn⟩⟩
    | none =>
      simp only [safe_get_from_array, internal_get, array_size, to_unsigned_200, h0, h1, hu, hn,
        bind_run, println_run, a_at, hv, ge_iff_le, and_self, if_true]
      exact ⟨rfl, ⟨_, rfl⟩, ⟨[i.toNat], rfl, by simpa using hn⟩⟩
  · rw [safe_get_of_out i m h]
    exact extends_refl m

theorem mono_curse2 (mode : OverflowMode) (b : Int) : Mono (curse2 mode b) := by
  unfold curse2
  repeat' first
    | exact mono_println _
    | exact mono_pure _
    | exact mono_throwCpp _
    | exact mono_add32 _ _ _
    | exact mono_safe_get _
    | refine mono_ite _ _ _ ?_ ?_
    | refine mono_bind _ _ ?_ (fun _ => ?_)

theorem mono_curse (mode : OverflowMode) (b : Int) : Mono (curse mode b) := by
  unfold curse
  dsimp only
  repeat' first
    | exact mono_println _
    | exact mono_pure _
    | exact mono_throwCpp _
    | exact mono_add32 _ _ _
    | exact mono_safe_get _
    | refine mono_ite _ _ _ ?_ ?_
    | refine mono_bind _ _ ?_ (fun _ => ?_)

theorem mono_print_array_at (b : Int) : Mono (print_array_at b) := by
  unfold print_array_at
  exact mono_bind _ _ (mono_safe_get _) (fun _ => mono_println _)

theorem mono_crash_with_cursed_integer2 (mode : OverflowMode) (b : Int) :
    Mono (crash_with_cursed_integer2 mode b) := by
  unfold crash_with_cursed_integer2
  repeat' first
    | exact mono_println _
    | exact mono_pure _
    | exact mono_curse2 _ _
    | exact mono_safe_get _
    | refine mono_ite _ _ _ ?_ ?_
    | refine mono_bind _ _ ?_ (fun _ => ?_)

theorem mono_crash_with_cursed_integer (mode : OverflowMode) (b : Int) :
    Mono (crash_with_cursed_integer mode b) := by
  unfold crash_with_cursed_integer
  repeat' first
    | exact mono_println _
    | exact mono_pure _
    | exact mono_curse _ _
    | exact mono_safe_get _
    | refine mono_ite _ _ _ ?_ ?_
    | refine mono_bind _ _ ?_ (fun _ => ?_)

theorem mono_crash_with_cursed_sanitization (mode : OverflowMode) (b : Int) :
    Mono (crash_with_cursed_sanitization mode b) := by
  unfold crash_with_cursed_sanitization
  dsimp only
  repeat' first
    | exact mono_println _
    | exact mono_pure _
    | exact mono_add32 _ _ _
    | exact mono_safe_get _
    | refine mono_ite _ _ _ ?_ ?_
    | refine mono_bind _ _ ?_ (fun _ => ?_)

theorem tidy_pure {α : Type} (x : α) : Tidy (pure x : Prog Globals α) :=
  fun m _ => ⟨⟨x, rfl⟩, extends_refl m⟩

theorem tidy_println (l : Line) : Tidy (println l : Prog Globals Unit) :=
  fun m _ => ⟨⟨(), rfl⟩, mono_println l m⟩

theorem tidy_add32_wrap (x y : Int) : Tidy (add32 OverflowMode.wrap x y : Prog Globals Int) :=
  fun m _ => ⟨⟨wrap32 (x + y), rfl⟩, extends_refl m⟩

theorem tidy_safe_get (i : Int) : Tidy (safe_get_from_array i) := by
  intro m hm
  refine ⟨?_, mono_safe_get i m⟩
  by_cases h : 0 ≤ i ∧ i < 200
  · obtain ⟨h0, h1⟩ := h
    have hn : i.toNat < 200 := by omega
    obtain ⟨v, hv⟩ : ∃ v, m.globals.a[i.toNat]? = some v :=
      ⟨m.globals.a[i.toNat], List.getElem?_eq_getElem (by omega)⟩
    exact ⟨v, by rw [safe_get_of_in i m v h0 h1 hv]⟩
  · exact ⟨0, by rw [safe_get_of_out i m h]⟩

theorem tidy_bind {α β : Type} (p : Prog Globals α) (f : α → Prog Globals β)
    (hp : Tidy p) (hf : ∀ x, Tidy (f x)) : Tidy (p >>= f) := by
  intro m hm
  obtain ⟨⟨x, hx⟩, hext⟩ := hp m hm
  rw [bind_run]
  rcases hpm : p m with ⟨r, m1⟩
  rw [hpm] at hx hext
  simp only at hx
  subst hx
  have hm1 : m1.globals.a.length = 200 := by rw [hext.1]; exact hm
  obtain ⟨hy, hext2⟩ := hf x m1 hm1
  exact ⟨hy, extends_trans hext hext2⟩

theorem tidy_ite {α : Type} (c : Prop) [Decidable c] (p q : Prog Globals α)
    (hp : Tidy p) (hq : Tidy q) : Tidy (if c then p else q) := by
  by_cases h : c
  · simpa [h] using hp
  · simpa [h] using hq

theorem tidy_print_array_at (b : Int) : Tidy (print_array_at b) := by
  unfold print_array_at
  exact tidy_bind _ _ (tidy_safe_get _) (fun _ => tidy_println _)

theorem tidy_crash_with_cursed_integer2 (b : Int) :
    Tidy (crash_with_cursed_integer2 OverflowMode.wrap b) := by
  unfold crash_with_cursed_integer2 curse2
  repeat' first
    | exact tidy_println _
    | exact tidy_pure _
    | exact tidy_add32_wrap _ _
    | exact tidy_safe_get _
    | refine tidy_ite _ _ _ ?_ ?_
    | refine tidy_bind _ _ ?_ (fun _ => ?_)

theorem tidy_crash_with_cursed_sanitization (b : Int) :
    Tidy (crash_with_cursed_sanitization OverflowMode.wrap b) := by
  unfold crash_with_cursed_sanitization
  dsimp only
  repeat' first
    | exact tidy_println _
    | exact tidy_pure _
    | exact tidy_add32_wrap _ _
    | exact tidy_safe_get _
    | refine tidy_ite _ _ _ ?_ ?_
    | refine tidy_bind _ _ ?_ (fun _ => ?_)

/-- A tidy first part hands a postcondition of the second part on to the whole. -/
theorem tidy_bind_post {α β : Type} (p : Prog Globals α) (f : α → Prog Globals β)
    (Q : Except Fault β → Machine Globals → Prop) (hp : Tidy p)
    (hf : ∀ x m, m.globals.a.length = 200 →
      ∃ r m1, f x m = (r, m1) ∧ Q r m1 ∧ Extends m m1)
    (m : Machine Globals) (hm : m.globals.a.length = 200) :
    ∃ r m1, (p >>= f) m = (r, m1) ∧ Q r m1 ∧ Extends m m1 := by
  obtain ⟨⟨x, hx⟩, hext⟩ := hp m hm
  rw [bind_run]
  rcases hpm : p m with ⟨r, m1⟩
  rw [hpm] at hx hext
  simp only at hx
  subst hx
  have hm1 : m1.globals.a.length = 200 := by rw [hext.1]; exact hm
  obtain ⟨r2, m2, hrun, hq, hext2⟩ := hf x m1 hm1
  exact ⟨r2, m2, hrun, hq, extends_trans hext hext2⟩

theorem bind_fst_of_error {α β : Type} (p : Prog Globals α) (f : α → Prog Globals β)
    (m : Machine Globals) (e : Fault) (h : (p m).1 = Except.error e) :
    ((p >>= f) m).1 = Except.error e := by
  rw [bind_run]
  rcases hpm : p m with ⟨r, m1⟩
  rw [hpm] at h
  simp only at h
  subst h
  rfl

theorem tryCatchAll_bind_ok {α β : Type} (p : Prog Globals α) (f : α → Prog Globals β)
    (h : Prog Globals β) (m m1 : Machine Globals) (x : α) (hp : p m = (Except.ok x, m1)) :
    tryCatchAll (p >>= f) h m = tryCatchAll (f x) h m1 := by
  unfold tryCatchAll
  rw [bind_run, hp]

theorem print_array_at_of_in (b : Int) (m : Machine Globals) (v : Int) (h0 : 0 ≤ b)
    (h1 : b < 200) (hv : m.globals.a[b.toNat]? = some v) :
    print_array_at b m =
      (Except.ok (),
        { m with
          out := m.out ++ [[Tok.str "Trying to read array at index=", Tok.num b], [Tok.num v]],
          reads := m.reads ++ [b.toNat] }) := by
  simp [print_array_at, bind_run, println_run, safe_get_of_in b m v h0 h1 hv]

theorem print_array_at_of_out (b : Int) (m : Machine Globals) (h : ¬ (0 ≤ b ∧ b < 200)) :
    print_array_at b m = (Except.ok (), { m with out := m.out ++ [[Tok.num 0]] }) := by
  simp [print_array_at, bind_run, println_run, safe_get_of_out b m h]

/-- With wrapping addition `curse b` returns when `b` is 0 or 1 or `b + 100`
overflows, and throws `invalid_argument` otherwise. -/
theorem curse_wrap_result (b : Int) (hb : InInt32 b) (m : Machine Globals) :
    ((b = 0 ∨ b = 1 ∨ b > 2147483647 - 100) → (curse OverflowMode.wrap b m).1 = Except.ok ()) ∧
    (¬ (b = 0 ∨ b = 1 ∨ b > 2147483647 - 100) →
      ∃ e, (curse OverflowMode.wrap b m).1 = Except.error (Fault.thrown e)) := by
  unfold InInt32 int_min int_max at hb
  constructor
  · intro hc
    have h0 : ¬ b < 0 := by omega
    have hw : ¬ wrap32 (b + 100) > 101 := by unfold wrap32; omega
    simp [curse, bind_run, pure_run, println_run, add32_wrap_run, h0, hw]
  · intro hc
    by_cases h0 : b < 0
    · exact ⟨CppException.invalid_argument "argument is too low",
        by simp [curse, bind_run, throwCpp_run, h0]⟩
    · have hw : wrap32 (b + 100) > 101 := by unfold wrap32; omega
      exact ⟨CppException.invalid_argument "argument is too high",
        by simp [curse, bind_run, pure_run, println_run, throwCpp_run, add32_wrap_run, h0, hw]⟩

/-- After the initialisation loop `main` first runs `print_array_at` on the
narrowed argument; everything later only extends the state. -/
theorem main_after_print (mode : OverflowMode) (stoll : String → Except CppException Int)
    (argv : List String) (v : Int) (m : Machine Globals)
    (hargc : argv.length = 2) (hparse : stoll (argv.getD 1 "") = Except.ok v)
    (hm : m.globals.a.length = 200) :
    ∃ g : Globals, (∀ i : Int, 0 ≤ i → i < 200 → g.a[i.toNat]? = some (i + 1)) ∧
      Extends (print_array_at (wrap32 v) { m with globals := g }).2
        (main mode stoll argv m).2 := by
  obtain ⟨g, hinit, ha, hg⟩ := init_array_run m hm
  refine ⟨g, hg, ?_⟩
  rw [main_run_parsed mode stoll argv v m hargc hparse]
  simp only [bind_run, hinit]
  have hlen : ({ m with globals := g } : Machine Globals).globals.a.length = 200 := by
    simp [ha]
  obtain ⟨⟨x, hx⟩, -⟩ := tidy_print_array_at (wrap32 v) { m with globals := g } hlen
  rcases hpm : print_array_at (wrap32 v) { m with globals := g } with ⟨r, mA⟩
  rw [hpm] at hx
  simp only at hx
  subst hx
  have hbind := tryCatchAll_bind_ok (print_array_at (wrap32 v))
    (fun _ => do
      crash_with_cursed_integer2 mode (wrap32 v)
      crash_with_cursed_integer mode (wrap32 v)
      crash_with_cursed_sanitization mode (wrap32 v)
      println [Tok.str "Didn't crash! Use GCC 12 or later with -O2 or higher"])
    (println [Tok.str "Acceptable outcome, caught exception."]) _ mA x hpm
  rw [hbind]
  have hmono : Mono (tryCatchAll
      (do
        crash_with_cursed_integer2 mode (wrap32 v)
        crash_with_cursed_integer mode (wrap32 v)
        crash_with_cursed_sanitization mode (wrap32 v)
        println [Tok.str "Didn't crash! Use GCC 12 or later with -O2 or higher"])
      (println [Tok.str "Acceptable outcome, caught exception."])) := by
    refine mono_tryCatchAll _ _ ?_ (mono_println _)
    refine mono_bind _ _ (mono_crash_with_cursed_integer2 _ _) (fun _ => ?_)
    refine mono_bind _ _ (mono_crash_with_cursed_integer _ _) (fun _ => ?_)
    exact mono_bind _ _ (mono_crash_with_cursed_sanitization _ _) (fun _ => mono_println _)
  have hext := hmono mA
  rcases htc : tryCatchAll
      (do
        crash_with_cursed_integer2 mode (wrap32 v)
        crash_with_cursed_integer mode (wrap32 v)
        crash_with_cursed_sanitization mode (wrap32 v)
        println [Tok.str "Didn't crash! Use GCC 12 or later with -O2 or higher"])
      (println [Tok.str "Acceptable outcome, caught exception."]) mA with ⟨r2, m2⟩
  rw [htc] at hext
  cases r2 with
  | ok y => exact hext
  | error e => exact hext

end CursedInteger

end CursedInt

/-! ## The drivers -/

namespace CursedInt

theorem first_value_append (pre rest : List Line) (x : Int) (h : first_value pre = some x) :
    first_value (pre ++ rest) = some x := by
  unfold first_value at h ⊢
  rw [List.findSome?_append, h]
  rfl

set_option maxRecDepth 100000 in
/-- C6 (as stated) fails: the argument `4294967301` parses as the integer
4294967301, which is not in `[0, 200)`, yet `main` of `cursed_integer.cpp` calls
the accessor with the narrowed value 5 and the first value printed is 6, not 0. -/
theorem main_first_value_counterexample :
    stoll_base10 "4294967301" = Except.ok 4294967301 ∧
    first_value (emitted (CursedInteger.main OverflowMode.wrap stoll_base10
      ["cursed_integer", "4294967301"]) CursedInteger.initial) = some 6 ∧
    first_value (emitted (CursedInteger.main OverflowMode.wrap stoll_base10
      ["cursed_integer", "4294967301"]) CursedInteger.initial)
      ≠ some (if 0 ≤ (4294967301 : Int) ∧ (4294967301 : Int) < 200 then 4294967301 + 1
          else 0) := by
  decide

/-- C6 (amended): for every argument that parses as an integer `v`, `main` of
`cursed_integer.cpp` calls the accessor with `b`, the value `v` narrowed to 32
bits (`b = v` whenever `v` is in the 32-bit signed range), and prints the result
first: the output starts with the trace line and `b + 1` when `0 ≤ b < 200` and
with `0` otherwise, so the first value printed is `b + 1` resp. `0`. -/
theorem main_first_value (mode : OverflowMode) (stoll : String → Except CppException Int)
    (argv : List String) (v : Int) (m : Machine CursedInteger.Globals)
    (hargc : argv.length = 2) (hparse : stoll (argv.getD 1 "") = Except.ok v)
    (hm : m.globals.a.length = 200) :
    ((0 ≤ wrap32 v ∧ wrap32 v < 200) →
      ∃ rest, emitted (CursedInteger.main mode stoll argv) m =
        [[Tok.str "Trying to read array at index=", Tok.num (wrap32 v)],
          [Tok.num (wrap32 v + 1)]] ++ rest) ∧
    (¬ (0 ≤ wrap32 v ∧ wrap32 v < 200) →
      ∃ rest, emitted (CursedInteger.main mode stoll argv) m = [[Tok.num 0]] ++ rest) ∧
    first_value (emitted (CursedInteger.main mode stoll argv) m)
      = some (if 0 ≤ wrap32 v ∧ wrap32 v < 200 then wrap32 v + 1 else 0) ∧
    (InInt32 v → wrap32 v = v) := by
  obtain ⟨g, hg, hext⟩ := CursedInteger.main_after_print mode stoll argv v m hargc hparse hm
  obtain ⟨-, ⟨ls, hls⟩, -⟩ := hext
  have hin : (0 ≤ wrap32 v ∧ wrap32 v < 200) →
      emitted (CursedInteger.main mode stoll argv) m =
        [[Tok.str "Trying to read array at index=", Tok.num (wrap32 v)],
          [Tok.num (wrap32 v + 1)]] ++ ls := by
    rintro ⟨h0, h1⟩
    rw [CursedInteger.print_array_at_of_in (wrap32 v) _ (wrap32 v + 1) h0 h1
      (hg (wrap32 v) h0 h1)] at hls
    unfold emitted
    rw [hls]
    simp
  have hout : ¬ (0 ≤ wrap32 v ∧ wrap32 v < 200) →
      emitted (CursedInteger.main mode stoll argv) m = [[Tok.num 0]] ++ ls := by
    intro h
    rw [CursedInteger.print_array_at_of_out (wrap32 v) _ h] at hls
    unfold emitted
    rw [hls]
    simp
  refine ⟨fun h => ⟨ls, hin h⟩, fun h => ⟨ls, hout h⟩, ?_, wrap32_of_in v⟩
  by_cases h : 0 ≤ wrap32 v ∧ wrap32 v < 200
  · rw [hin h, if_pos h]
    exact first_value_append _ _ _ rfl
  · rw [hout h, if_neg h]
    exact first_value_append _ _ _ rfl

/-- Instance of the amended C6: the argument `"7"` on the zero-initialised array. -/
theorem main_first_value_witness :
    ["cursed_integer", "7"].length = 2 ∧
    stoll_base10 (["cursed_integer", "7"].getD 1 "") = Except.ok 7 ∧
    CursedInteger.initial.globals.a.length = 200 ∧
    first_value (emitted (CursedInteger.main OverflowMode.trap stoll_base10
      ["cursed_integer", "7"]) CursedInteger.initial)
      = some (if 0 ≤ wrap32 7 ∧ wrap32 7 < 200 then wrap32 7 + 1 else 0) :=
  ⟨by decide, by decide, by rfl,
    (main_first_value OverflowMode.trap stoll_base10 ["cursed_integer", "7"] 7
      CursedInteger.initial (by decide) (by decide) (by rfl)).2.2.1⟩

end CursedInt

/-! ## crash_with_cursed_sanitization -/

namespace CursedInt

namespace CursedInteger

theorem sanitization_run_neg (mode : OverflowMode) (b : Int) (m : Machine Globals)
    (h : b < 0) :
    crash_with_cursed_sanitization mode b m =
      (Except.ok (),
        { m with out := m.out ++ [[Tok.str "Insanitizing ", Tok.num b, Tok.str ":"]] }) := by
  simp [crash_with_cursed_sanitization, bind_run, pure_run, println_run, h]

theorem sanitization_run_mid (mode : OverflowMode) (b : Int) (m : Machine Globals)
    (h2 : 2 ≤ b) (h : b ≤ 2147483647 - 100) :
    crash_with_cursed_sanitization mode b m =
      (Except.ok (),
        { m with
          out := m.out ++ [[Tok.str "Insanitizing ", Tok.num b, Tok.str ":"],
            [Tok.str "b+100 is ", Tok.num (b + 100)]] }) := by
  have h0 : ¬ b < 0 := by omega
  have hgt : b + 100 > 101 := by omega
  have hin : InInt32 (b + 100) := by unfold InInt32 int_min int_max; omega
  simp [crash_with_cursed_sanitization, bind_run, pure_run, println_run,
    add32_run_in mode b 100 _ hin, h0, hgt]

theorem sanitization_run_small (mode : OverflowMode) (b : Int) (m : Machine Globals) (v : Int)
    (h : b = 0 ∨ b = 1) (hv : m.globals.a[b.toNat]? = some v) :
    crash_with_cursed_sanitization mode b m =
      (Except.ok (),
        { m with
          out := m.out ++ [[Tok.str "Insanitizing ", Tok.num b, Tok.str ":"],
            [Tok.str "b+100 is ", Tok.num (b + 100)],
            [Tok.str "Using cursed number for array access:"],
            [Tok.str "Trying to read array at index=", Tok.num b],
            [Tok.num v]],
          reads := m.reads ++ [b.toNat] }) := by
  have h0 : ¬ b < 0 := by omega
  have hgt : ¬ b + 100 > 101 := by omega
  have hin : InInt32 (b + 100) := by unfold InInt32 int_min int_max; omega
  have hs := fun m1 hv1 => safe_get_of_in b m1 v (by omega) (by omega) hv1
  simp [crash_with_cursed_sanitization, bind_run, pure_run, println_run,
    add32_run_in mode b 100 _ hin, h0, hgt, hs, hv]

theorem sanitization_run_over_wrap (b : Int) (m : Machine Globals) (hb : InInt32 b)
    (h : b > 2147483647 - 100) :
    crash_with_cursed_sanitization OverflowMode.wrap b m =
      (Except.ok (),
        { m with
          out := m.out ++ [[Tok.str "Insanitizing ", Tok.num b, Tok.str ":"],
            [Tok.str "b+100 is ", Tok.num (b + 100 - 4294967296)],
            [Tok.str "Using cursed number for array access:"],
            [Tok.num 0]] }) := by
  unfold InInt32 int_min int_max at hb
  have h0 : ¬ b < 0 := by omega
  have hw : wrap32 (b + 100) = b + 100 - 4294967296 := by unfold wrap32; omega
  have hgt : ¬ b + 100 - 4294967296 > 101 := by omega
  have hout : ¬ (0 ≤ b ∧ b < 200) := by omega
  simp [crash_with_cursed_sanitization, bind_run, pure_run, println_run, add32_wrap_run,
    h0, hw, hgt, safe_get_of_out b _ hout]

theorem sanitization_run_over_trap (b : Int) (m : Machine Globals)
    (h : b > 2147483647 - 100) :
    crash_with_cursed_sanitization OverflowMode.trap b m =
      (Except.error Fault.trapped,
        { m with out := m.out ++ [[Tok.str "Insanitizing ", Tok.num b, Tok.str ":"]] }) := by
  have h0 : ¬ b < 0 := by omega
  have hin : ¬ InInt32 (b + 100) := by unfold InInt32 int_min int_max; omega
  simp [crash_with_cursed_sanitization, bind_run, pure_run, println_run,
    add32_trap_run_out b 100 _ hin, h0]

/-- When both tests let `b` through under wrapping addition, the run is the
three lines followed by the accessor call on `b` and the printing of its result. -/
theorem sanitization_run_reach_wrap (b : Int) (m : Machine Globals) (hb : InInt32 b)
    (hc : b = 0 ∨ b = 1 ∨ b > 2147483647 - 100) :
    crash_with_cursed_sanitization OverflowMode.wrap b m =
      (safe_get_from_array b >>= fun v => println [Tok.num v])
        { m with
          out := m.out ++ [[Tok.str "Insanitizing ", Tok.num b, Tok.str ":"],
            [Tok.str "b+100 is ", Tok.num (wrap32 (b + 100))],
            [Tok.str "Using cursed number for array access:"]] } := by
  unfold InInt32 int_min int_max at hb
  have h0 : ¬ b < 0 := by omega
  have hgt : ¬ wrap32 (b + 100) > 101 := by unfold wrap32; omega
  simp [crash_with_cursed_sanitization, bind_run, pure_run, println_run, add32_wrap_run,
    h0, hgt]

/-- When `b` is 0 or 1 the run is, under either treatment of overflow, the three
lines followed by the accessor call on `b` and the printing of its result. -/
theorem sanitization_run_reach_small (mode : OverflowMode) (b : Int) (m : Machine Globals)
    (h : b = 0 ∨ b = 1) :
    crash_with_cursed_sanitization mode b m =
      (safe_get_from_array b >>= fun v => println [Tok.num v])
        { m with
          out := m.out ++ [[Tok.str "Insanitizing ", Tok.num b, Tok.str ":"],
            [Tok.str "b+100 is ", Tok.num (b + 100)],
            [Tok.str "Using cursed number for array access:"]] } := by
  have h0 : ¬ b < 0 := by omega
  have hgt : ¬ b + 100 > 101 := by omega
  have hin : InInt32 (b + 100) := by unfold InInt32 int_min int_max; omega
  simp [crash_with_cursed_sanitization, bind_run, pure_run, println_run,
    add32_run_in mode b 100 _ hin, h0, hgt]

end CursedInteger

end CursedInt

namespace CursedInt

set_option maxRecDepth 100000 in
/-- C7 (failing input): an argument whose value does not fit 64 bits makes
`std::stoll` throw `out_of_range`; the handler in `main` of either program
catches `invalid_argument` only, so the exception leaves `main`: the run ends
without exit status 0 or 1 and without the usage line. -/
theorem main_out_of_range_argument_escapes :
    stoll_base10 "9223372036854775808" = Except.error (CppException.out_of_range "stoll") ∧
    CursedInteger.main OverflowMode.wrap stoll_base10
        ["cursed_integer", "9223372036854775808"] CursedInteger.initial
      = (Except.error (Fault.thrown (CppException.out_of_range "stoll")),
          CursedInteger.initial) ∧
    OldFlawed.main OverflowMode.wrap stoll_base10
        ["old_flawed_integers", "9223372036854775808"] OldFlawed.initial
      = (Except.error (Fault.thrown (CppException.out_of_range "stoll")),
          OldFlawed.initial) := by
  have h : stoll_base10 "9223372036854775808"
      = Except.error (CppException.out_of_range "stoll") := by decide
  refine ⟨h, ?_, ?_⟩
  · simp [CursedInteger.main, h, bind_run, pure_run, throwCpp_run]
  · simp [OldFlawed.main, h, bind_run, pure_run, throwCpp_run]

/-- C8: with 32-bit wraparound, `crash_with_cursed_sanitization b` reaches the
array read exactly when `b` is 0 or 1 or `b > 2147483647 - 100`.  For these `b`
the run is: the three lines (the third announces the access), then the accessor
call `safe_get_from_array b`, then the printing of its result.  For every other
`b` the run returns after the first line (`b < 0`) or after the second
(`2 ≤ b ≤ 2147483647 - 100`), with no further output and no element access.
When `b > 2147483647 - 100` the value printed as `b+100` is `b + 100 - 2^32`
(-2147483549 for `b = 2147483647`), the accessor returns 0 and no element is
accessed; for `b` 0 or 1 the element at `b` is read and printed.  In all cases
the indices handed to `at` are `[b]` if `b` is 0 or 1 and none otherwise. -/
theorem crash_with_cursed_sanitization_wrap (b : Int) (hb : InInt32 b)
    (m : Machine CursedInteger.Globals) (hm : m.globals.a.length = 200) :
    ([Tok.str "Using cursed number for array access:"]
        ∈ emitted (CursedInteger.crash_with_cursed_sanitization OverflowMode.wrap b) m ↔
      (b = 0 ∨ b = 1 ∨ b > 2147483647 - 100)) ∧
    (b > 2147483647 - 100 →
      CursedInteger.crash_with_cursed_sanitization OverflowMode.wrap b m =
        (Except.ok (),
          { m with
            out := m.out ++ [[Tok.str "Insanitizing ", Tok.num b, Tok.str ":"],
              [Tok.str "b+100 is ", Tok.num (b + 100 - 4294967296)],
              [Tok.str "Using cursed number for array access:"],
              [Tok.num 0]] })) ∧
    ([Tok.str "b+100 is ", Tok.num (-2147483549)]
        ∈ emitted (CursedInteger.crash_with_cursed_sanitization OverflowMode.wrap 2147483647)
            m) ∧
    ((b = 0 ∨ b = 1) →
      (CursedInteger.crash_with_cursed_sanitization OverflowMode.wrap b m).2.reads
        = m.reads ++ [b.toNat]) ∧
    (b < 0 →
      CursedInteger.crash_with_cursed_sanitization OverflowMode.wrap b m =
        (Except.ok (),
          { m with out := m.out ++ [[Tok.str "Insanitizing ", Tok.num b, Tok.str ":"]] })) ∧
    (2 ≤ b ∧ b ≤ 2147483647 - 100 →
      CursedInteger.crash_with_cursed_sanitization OverflowMode.wrap b m =
        (Except.ok (),
          { m with
            out := m.out ++ [[Tok.str "Insanitizing ", Tok.num b, Tok.str ":"],
              [Tok.str "b+100 is ", Tok.num (b + 100)]] })) ∧
    ((b = 0 ∨ b = 1 ∨ b > 2147483647 - 100) →
      CursedInteger.crash_with_cursed_sanitization OverflowMode.wrap b m =
        (CursedInteger.safe_get_from_array b >>= fun v => println [Tok.num v])
          { m with
            out := m.out ++ [[Tok.str "Insanitizing ", Tok.num b, Tok.str ":"],
              [Tok.str "b+100 is ", Tok.num (wrap32 (b + 100))],
              [Tok.str "Using cursed number for array access:"]] }) ∧
    ((b = 0 ∨ b = 1) →
      ∃ v, m.globals.a[b.toNat]? = some v ∧
        CursedInteger.crash_with_cursed_sanitization OverflowMode.wrap b m =
          (Except.ok (),
            { m with
              out := m.out ++ [[Tok.str "Insanitizing ", Tok.num b, Tok.str ":"],
                [Tok.str "b+100 is ", Tok.num (b + 100)],
                [Tok.str "Using cursed number for array access:"],
                [Tok.str "Trying to read array at index=", Tok.num b],
                [Tok.num v]],
              reads := m.reads ++ [b.toNat] })) ∧
    (CursedInteger.crash_with_cursed_sanitization OverflowMode.wrap b m).2.reads
      = m.reads ++ (if b = 0 ∨ b = 1 then [b.toNat] else []) := by
  have hb' := hb
  unfold InInt32 int_min int_max at hb'
  have hlook : (b = 0 ∨ b = 1) → ∃ v, m.globals.a[b.toNat]? = some v := fun _ =>
    ⟨m.globals.a[b.toNat], List.getElem?_eq_getElem (by omega)⟩
  refine ⟨?_, fun h => CursedInteger.sanitization_run_over_wrap b m hb h, ?_, ?_,
    fun h => CursedInteger.sanitization_run_neg OverflowMode.wrap b m h,
    fun h => CursedInteger.sanitization_run_mid OverflowMode.wrap b m h.1 h.2,
    fun h => CursedInteger.sanitization_run_reach_wrap b m hb h, ?_, ?_⟩
  · by_cases hneg : b < 0
    · rw [emitted_of_out _ m _
        (by rw [CursedInteger.sanitization_run_neg OverflowMode.wrap b m hneg])]
      simp
      omega
    · by_cases hover : b > 2147483647 - 100
      · rw [emitted_of_out _ m _
          (by rw [CursedInteger.sanitization_run_over_wrap b m hb hover])]
        simp
        omega
      · by_cases hsmall : b = 0 ∨ b = 1
        · obtain ⟨v, hv⟩ := hlook hsmall
          rw [emitted_of_out _ m _
            (by rw [CursedInteger.sanitization_run_small OverflowMode.wrap b m v hsmall hv])]
          simp
          omega
        · rw [emitted_of_out _ m _
            (by rw [CursedInteger.sanitization_run_mid OverflowMode.wrap b m (by omega)
              (by omega)])]
          simp
          omega
  · rw [emitted_of_out _ m _
      (by rw [CursedInteger.sanitization_run_over_wrap 2147483647 m (by decide) (by decide)])]
    simp
  · intro hsmall
    obtain ⟨v, hv⟩ := hlook hsmall
    rw [CursedInteger.sanitization_run_small OverflowMode.wrap b m v hsmall hv]
  · intro hsmall
    obtain ⟨v, hv⟩ := hlook hsmall
    exact ⟨v, hv, CursedInteger.sanitization_run_small OverflowMode.wrap b m v hsmall hv⟩
  · by_cases hsmall : b = 0 ∨ b = 1
    · obtain ⟨v, hv⟩ := hlook hsmall
      rw [CursedInteger.sanitization_run_small OverflowMode.wrap b m v hsmall hv, if_pos hsmall]
    · rw [if_neg hsmall]
      by_cases hneg : b < 0
      · rw [CursedInteger.sanitization_run_neg OverflowMode.wrap b m hneg]
        simp
      · by_cases hover : b > 2147483647 - 100
        · rw [CursedInteger.sanitization_run_over_wrap b m hb hover]
          simp
        · rw [CursedInteger.sanitization_run_mid OverflowMode.wrap b m (by omega) (by omega)]
          simp

/-- Instance of C8 at the largest 32-bit value on the zero-initialised array. -/
theorem crash_with_cursed_sanitization_wrap_witness :
    InInt32 2147483647 ∧ CursedInteger.initial.globals.a.length = 200 ∧
    CursedInteger.crash_with_cursed_sanitization OverflowMode.wrap 2147483647
        CursedInteger.initial =
      (Except.ok (),
        { CursedInteger.initial with
          out := CursedInteger.initial.out ++
            [[Tok.str "Insanitizing ", Tok.num 2147483647, Tok.str ":"],
              [Tok.str "b+100 is ", Tok.num (2147483647 + 100 - 4294967296)],
              [Tok.str "Using cursed number for array access:"],
              [Tok.num 0]] }) :=
  ⟨by decide, by rfl,
    (crash_with_cursed_sanitization_wrap 2147483647 (by decide) CursedInteger.initial
      (by rfl)).2.1 (by decide)⟩

end CursedInt

/-! ## The run of `main` with wrapping addition -/

namespace CursedInt

namespace CursedInteger

theorem tidy_curse_wrap (b : Int) (hb : InInt32 b)
    (hc : b = 0 ∨ b = 1 ∨ b > 2147483647 - 100) : Tidy (curse OverflowMode.wrap b) :=
  fun m _ => ⟨⟨(), (curse_wrap_result b hb m).1 hc⟩, mono_curse OverflowMode.wrap b m⟩

theorem tidy_crash_with_cursed_integer (b : Int) (hb : InInt32 b)
    (hc : b = 0 ∨ b = 1 ∨ b > 2147483647 - 100) :
    Tidy (crash_with_cursed_integer OverflowMode.wrap b) := by
  unfold crash_with_cursed_integer
  repeat' first
    | exact tidy_println _
    | exact tidy_curse_wrap b hb hc
    | exact tidy_safe_get _
    | refine tidy_bind _ _ ?_ (fun _ => ?_)

theorem crash_with_cursed_integer_throws (b : Int) (hb : InInt32 b)
    (hc : ¬ (b = 0 ∨ b = 1 ∨ b > 2147483647 - 100)) (m : Machine Globals) :
    ∃ e, (crash_with_cursed_integer OverflowMode.wrap b m).1
      = Except.error (Fault.thrown e) := by
  obtain ⟨e, he⟩ := (curse_wrap_result b hb
    { m with out := m.out ++ [[Tok.str "Cursing ", Tok.num b,
      Tok.str " with undefined behavior:"]] }).2 hc
  refine ⟨e, ?_⟩
  unfold crash_with_cursed_integer
  rw [bind_run, println_run]
  exact bind_fst_of_error _ _ _ _ he

/-- The `try` block of `main` when `curse` lets `b` through: it returns and its
last line is the closing message. -/
theorem try_block_returns (b : Int) (hb : InInt32 b)
    (hc : b = 0 ∨ b = 1 ∨ b > 2147483647 - 100) (m : Machine Globals)
    (hm : m.globals.a.length = 200) :
    ∃ r m1,
      (do
        print_array_at b
        crash_with_cursed_integer2 OverflowMode.wrap b
        crash_with_cursed_integer OverflowMode.wrap b
        crash_with_cursed_sanitization OverflowMode.wrap b
        println [Tok.str "Didn't crash! Use GCC 12 or later with -O2 or higher"]
        : Prog Globals Unit) m = (r, m1) ∧
      (r = Except.ok () ∧ m1.out.getLast?
        = some [Tok.str "Didn't crash! Use GCC 12 or later with -O2 or higher"]) ∧
      Extends m m1 := by
  refine tidy_bind_post _ _
    (fun r m1 => r = Except.ok () ∧ m1.out.getLast?
      = some [Tok.str "Didn't crash! Use GCC 12 or later with -O2 or higher"])
    (tidy_print_array_at b) (fun _ m1 hm1 => ?_) m hm
  refine tidy_bind_post _ _
    (fun r m1 => r = Except.ok () ∧ m1.out.getLast?
      = some [Tok.str "Didn't crash! Use GCC 12 or later with -O2 or higher"])
    (tidy_crash_with_cursed_integer2 b) (fun _ m2 hm2 => ?_) m1 hm1
  refine tidy_bind_post _ _
    (fun r m1 => r = Except.ok () ∧ m1.out.getLast?
      = some [Tok.str "Didn't crash! Use GCC 12 or later with -O2 or higher"])
    (tidy_crash_with_cursed_integer b hb hc) (fun _ m3 hm3 => ?_) m2 hm2
  refine tidy_bind_post _ _
    (fun r m1 => r = Except.ok () ∧ m1.out.getLast?
      = some [Tok.str "Didn't crash! Use GCC 12 or later with -O2 or higher"])
    (tidy_crash_with_cursed_sanitization b) (fun _ m4 _ => ?_) m3 hm3
  refine ⟨_, _, println_run _ m4, ⟨rfl, ?_⟩, mono_println _ m4⟩
  simp

/-- The `try` block of `main` when `curse` rejects `b`: it ends with an exception. -/
theorem try_block_throws (b : Int) (hb : InInt32 b)
    (hc : ¬ (b = 0 ∨ b = 1 ∨ b > 2147483647 - 100)) (m : Machine Globals)
    (hm : m.globals.a.length = 200) :
    ∃ r m1,
      (do
        print_array_at b
        crash_with_cursed_integer2 OverflowMode.wrap b
        crash_with_cursed_integer OverflowMode.wrap b
        crash_with_cursed_sanitization OverflowMode.wrap b
        println [Tok.str "Didn't crash! Use GCC 12 or later with -O2 or higher"]
        : Prog Globals Unit) m = (r, m1) ∧
      (∃ e, r = Except.error (Fault.thrown e)) ∧ Extends m m1 := by
  refine tidy_bind_post _ _ (fun r _ => ∃ e, r = Except.error (Fault.thrown e))
    (tidy_print_array_at b) (fun _ m1 hm1 => ?_) m hm
  refine tidy_bind_post _ _ (fun r _ => ∃ e, r = Except.error (Fault.thrown e))
    (tidy_crash_with_cursed_integer2 b) (fun _ m2 _ => ?_) m1 hm1
  obtain ⟨e, he⟩ := crash_with_cursed_integer_throws b hb hc m2
  refine ⟨_, _, rfl, ⟨e, bind_fst_of_error _ _ _ _ he⟩, ?_⟩
  refine mono_bind _ _ (mono_crash_with_cursed_integer _ _) (fun _ => ?_) m2
  exact mono_bind _ _ (mono_crash_with_cursed_sanitization _ _) (fun _ => mono_println _)

/-- A run of the shape of `main` after parsing: initialisation, then a `try`
block whose handler prints one line, then `return 0`. -/
theorem init_try_run (init body : Prog Globals Unit) (l : Line) (m m0 m1 : Machine Globals)
    (r : Except Fault Unit) (hinit : init m = (Except.ok (), m0)) (hbody : body m0 = (r, m1)) :
    (do
      init
      tryCatchAll body (println l)
      pure 0 : Prog Globals Int) m =
      match r with
      | Except.ok _ => (Except.ok 0, m1)
      | Except.error (Fault.thrown _) => (Except.ok 0, { m1 with out := m1.out ++ [l] })
      | Except.error Fault.trapped => (Except.error Fault.trapped, m1) := by
  simp only [bind_run, hinit, tryCatchAll, hbody]
  cases r with
  | ok x => rfl
  | error e =>
    cases e with
    | thrown e => rfl
    | trapped => rfl

end CursedInteger

end CursedInt

namespace CursedInt

/-- C9: with 32-bit wraparound, for every parsed argument (narrowed to the 32-bit
`b`) `main` of `cursed_integer.cpp` runs to completion with exit status 0, every
index it hands to `at` is below 200 (the length the array still has); its last
line is the "Didn't crash!" line exactly when `b` is 0 or 1 or
`b > 2147483647 - 100`, and the "Acceptable outcome, caught exception." line
exactly for every other `b` (`b < 0` or `2 ≤ b ≤ 2147483647 - 100`). -/
theorem main_wrap_outcome (stoll : String → Except CppException Int)
    (argv : List String) (v : Int) (m : Machine CursedInteger.Globals)
    (hargc : argv.length = 2) (hparse : stoll (argv.getD 1 "") = Except.ok v)
    (hm : m.globals.a.length = 200) :
    (CursedInteger.main OverflowMode.wrap stoll argv m).1 = Except.ok 0 ∧
    (∃ rs, (CursedInteger.main OverflowMode.wrap stoll argv m).2.reads = m.reads ++ rs ∧
      ∀ n ∈ rs, n < 200) ∧
    (CursedInteger.main OverflowMode.wrap stoll argv m).2.globals.a.length = 200 ∧
    ((CursedInteger.main OverflowMode.wrap stoll argv m).2.out.getLast?
        = some [Tok.str "Didn't crash! Use GCC 12 or later with -O2 or higher"] ↔
      (wrap32 v = 0 ∨ wrap32 v = 1 ∨ wrap32 v > 2147483647 - 100)) ∧
    ((CursedInteger.main OverflowMode.wrap stoll argv m).2.out.getLast?
        = some [Tok.str "Acceptable outcome, caught exception."] ↔
      (wrap32 v < 0 ∨ (2 ≤ wrap32 v ∧ wrap32 v ≤ 2147483647 - 100))) := by
  rw [CursedInteger.main_run_parsed OverflowMode.wrap stoll argv v m hargc hparse]
  obtain ⟨g, hinit, ha, -⟩ := CursedInteger.init_array_run m hm
  have hb := wrap32_in v
  generalize wrap32 v = b at hb ⊢
  have hlen : ({ m with globals := g } : Machine CursedInteger.Globals).globals.a.length
      = 200 := by
    simp [ha]
  have hb' := hb
  unfold InInt32 int_min int_max at hb'
  by_cases hc : b = 0 ∨ b = 1 ∨ b > 2147483647 - 100
  · obtain ⟨r, m1, hbody, ⟨hr, hlast⟩, hg1, -, ⟨rs, hrs, hlt⟩⟩ :=
      CursedInteger.try_block_returns b hb hc _ hlen
    subst hr
    rw [CursedInteger.init_try_run _ _ _ m _ m1 _ hinit hbody]
    refine ⟨rfl, ⟨rs, hrs, hlt⟩, by rw [hg1]; exact hlen, ?_, ?_⟩
    · simp only [hlast, hc]
    · simp only [hlast]
      constructor
      · intro h
        simp at h
      · intro h
        omega
  · obtain ⟨r, m1, hbody, ⟨e, hr⟩, hg1, -, ⟨rs, hrs, hlt⟩⟩ :=
      CursedInteger.try_block_throws b hb hc _ hlen
    subst hr
    rw [CursedInteger.init_try_run _ _ _ m _ m1 _ hinit hbody]
    refine ⟨rfl, ⟨rs, hrs, hlt⟩, by rw [hg1]; exact hlen, ?_, ?_⟩
    · simp
      omega
    · simp
      omega

/-- Instance of C9: the argument `"2147483647"` on the zero-initialised array. -/
theorem main_wrap_outcome_witness :
    ["cursed_integer", "2147483647"].length = 2 ∧
    stoll_base10 (["cursed_integer", "2147483647"].getD 1 "") = Except.ok 2147483647 ∧
    CursedInteger.initial.globals.a.length = 200 ∧
    (CursedInteger.main OverflowMode.wrap stoll_base10 ["cursed_integer", "2147483647"]
      CursedInteger.initial).1 = Except.ok 0 :=
  ⟨by decide, by decide, by rfl,
    (main_wrap_outcome stoll_base10 ["cursed_integer", "2147483647"] 2147483647
      CursedInteger.initial (by decide) (by decide) (by rfl)).1⟩

/-- C10: with trapping signed overflow, `crash_with_cursed_sanitization b` fails
at the addition `b + 100` exactly when `b > 2147483647 - 100`, having printed
only its first line: the sum is not printed and no array access takes place.
It reaches `safe_get_from_array b` exactly when `b` is 0 or 1: for these `b` the
run is the three lines (the third announces the access), then the accessor call
on `b`, which reads the element at `b`, then the printing of its result.  For
every other `b` that does not trap the run returns after the first line
(`b < 0`) or after the second (`2 ≤ b ≤ 2147483647 - 100`), with no further
output and no element access.  In all cases the indices handed to `at` are `[b]`
if `b` is 0 or 1 and none otherwise. -/
theorem crash_with_cursed_sanitization_trap (b : Int) (hb : InInt32 b)
    (m : Machine CursedInteger.Globals) (hm : m.globals.a.length = 200) :
    ((CursedInteger.crash_with_cursed_sanitization OverflowMode.trap b m).1
        = Except.error Fault.trapped ↔ b > 2147483647 - 100) ∧
    (b > 2147483647 - 100 →
      CursedInteger.crash_with_cursed_sanitization OverflowMode.trap b m =
        (Except.error Fault.trapped,
          { m with out := m.out ++ [[Tok.str "Insanitizing ", Tok.num b, Tok.str ":"]] })) ∧
    ([Tok.str "Using cursed number for array access:"]
        ∈ emitted (CursedInteger.crash_with_cursed_sanitization OverflowMode.trap b) m ↔
      (b = 0 ∨ b = 1)) ∧
    ((b = 0 ∨ b = 1) →
      (CursedInteger.crash_with_cursed_sanitization OverflowMode.trap b m).2.reads
        = m.reads ++ [b.toNat]) ∧
    (b < 0 →
      CursedInteger.crash_with_cursed_sanitization OverflowMode.trap b m =
        (Except.ok (),
          { m with out := m.out ++ [[Tok.str "Insanitizing ", Tok.num b, Tok.str ":"]] })) ∧
    (2 ≤ b ∧ b ≤ 2147483647 - 100 →
      CursedInteger.crash_with_cursed_sanitization OverflowMode.trap b m =
        (Except.ok (),
          { m with
            out := m.out ++ [[Tok.str "Insanitizing ", Tok.num b, Tok.str ":"],
              [Tok.str "b+100 is ", Tok.num (b + 100)]] })) ∧
    ((b = 0 ∨ b = 1) →
      CursedInteger.crash_with_cursed_sanitization OverflowMode.trap b m =
        (CursedInteger.safe_get_from_array b >>= fun v => println [Tok.num v])
          { m with
            out := m.out ++ [[Tok.str "Insanitizing ", Tok.num b, Tok.str ":"],
              [Tok.str "b+100 is ", Tok.num (b + 100)],
              [Tok.str "Using cursed number for array access:"]] }) ∧
    ((b = 0 ∨ b = 1) →
      ∃ v, m.globals.a[b.toNat]? = some v ∧
        CursedInteger.crash_with_cursed_sanitization OverflowMode.trap b m =
          (Except.ok (),
            { m with
              out := m.out ++ [[Tok.str "Insanitizing ", Tok.num b, Tok.str ":"],
                [Tok.str "b+100 is ", Tok.num (b + 100)],
                [Tok.str "Using cursed number for array access:"],
                [Tok.str "Trying to read array at index=", Tok.num b],
                [Tok.num v]],
              reads := m.reads ++ [b.toNat] })) ∧
    (CursedInteger.crash_with_cursed_sanitization OverflowMode.trap b m).2.reads
      = m.reads ++ (if b = 0 ∨ b = 1 then [b.toNat] else []) := by
  have hb' := hb
  unfold InInt32 int_min int_max at hb'
  have hlook : (b = 0 ∨ b = 1) → ∃ v, m.globals.a[b.toNat]? = some v := fun _ =>
    ⟨m.globals.a[b.toNat], List.getElem?_eq_getElem (by omega)⟩
  refine ⟨?_, fun h => CursedInteger.sanitization_run_over_trap b m h, ?_, ?_,
    fun h => CursedInteger.sanitization_run_neg OverflowMode.trap b m h,
    fun h => CursedInteger.sanitization_run_mid OverflowMode.trap b m h.1 h.2,
    fun h => CursedInteger.sanitization_run_reach_small OverflowMode.trap b m h, ?_, ?_⟩
  · by_cases hneg : b < 0
    · rw [CursedInteger.sanitization_run_neg OverflowMode.trap b m hneg]
      constructor
      · intro h
        simp at h
      · intro h
        omega
    · by_cases hover : b > 2147483647 - 100
      · rw [CursedInteger.sanitization_run_over_trap b m hover]
        simp only [true_iff, hover]
      · by_cases hsmall : b = 0 ∨ b = 1
        · obtain ⟨v, hv⟩ := hlook hsmall
          rw [CursedInteger.sanitization_run_small OverflowMode.trap b m v hsmall hv]
          constructor
          · intro h
            simp at h
          · intro h
            omega
        · rw [CursedInteger.sanitization_run_mid OverflowMode.trap b m (by omega) (by omega)]
          constructor
          · intro h
            simp at h
          · intro h
            omega
  · by_cases hneg : b < 0
    · rw [emitted_of_out _ m _
        (by rw [CursedInteger.sanitization_run_neg OverflowMode.trap b m hneg])]
      simp
      omega
    · by_cases hover : b > 2147483647 - 100
      · rw [emitted_of_out _ m _
          (by rw [CursedInteger.sanitization_run_over_trap b m hover])]
        simp
        omega
      · by_cases hsmall : b = 0 ∨ b = 1
        · obtain ⟨v, hv⟩ := hlook hsmall
          rw [emitted_of_out _ m _
            (by rw [CursedInteger.sanitization_run_small OverflowMode.trap b m v hsmall hv])]
          simp
          omega
        · rw [emitted_of_out _ m _
            (by rw [CursedInteger.sanitization_run_mid OverflowMode.trap b m (by omega)
              (by omega)])]
          simp
          omega
  · intro hsmall
    obtain ⟨v, hv⟩ := hlook hsmall
    rw [CursedInteger.sanitization_run_small OverflowMode.trap b m v hsmall hv]
  · intro hsmall
    obtain ⟨v, hv⟩ := hlook hsmall
    exact ⟨v, hv, CursedInteger.sanitization_run_small OverflowMode.trap b m v hsmall hv⟩
  · by_cases hsmall : b = 0 ∨ b = 1
    · obtain ⟨v, hv⟩ := hlook hsmall
      rw [CursedInteger.sanitization_run_small OverflowMode.trap b m v hsmall hv, if_pos hsmall]
    · rw [if_neg hsmall]
      by_cases hneg : b < 0
      · rw [CursedInteger.sanitization_run_neg OverflowMode.trap b m hneg]
        simp
      · by_cases hover : b > 2147483647 - 100
        · rw [CursedInteger.sanitization_run_over_trap b m hover]
          simp
        · rw [CursedInteger.sanitization_run_mid OverflowMode.trap b m (by omega) (by omega)]
          simp

/-- Instance of C10 at the largest 32-bit value on the zero-initialised array. -/
theorem crash_with_cursed_sanitization_trap_witness :
    InInt32 2147483647 ∧ CursedInteger.initial.globals.a.length = 200 ∧
    CursedInteger.crash_with_cursed_sanitization OverflowMode.trap 2147483647
        CursedInteger.initial =
      (Except.error Fault.trapped,
        { CursedInteger.initial with
          out := CursedInteger.initial.out ++
            [[Tok.str "Insanitizing ", Tok.num 2147483647, Tok.str ":"]] }) :=
  ⟨by decide, by rfl,
    (crash_with_cursed_sanitization_trap 2147483647 (by decide) CursedInteger.initial
      (by rfl)).2.1 (by decide)⟩

end CursedInt

/-! ## old_flawed_integers.cpp: the sanitization experiments -/

namespace CursedInt

theorem to_unsigned_of_neg (i : Int) (hi : InInt32 i) (h : i < 0) :
    2 ^ 31 ≤ to_unsigned i ∧ to_unsigned i = (i + 4294967296).toNat := by
  unfold InInt32 int_min int_max at hi
  unfold to_unsigned
  omega

theorem to_unsigned_of_int32_nonneg (i : Int) (hi : InInt32 i) (h : 0 ≤ i) :
    to_unsigned i < 2 ^ 31 ∧ to_unsigned i = i.toNat := by
  unfold InInt32 int_min int_max at hi
  unfold to_unsigned
  omega

end CursedInt

namespace CursedInt

/-- C13: for every 32-bit signed index `i`, in either file,
`safe_get_from_array i` is the same run as `internal_get` applied to `i`
converted to unsigned (same result, same output, same element accesses): a
negative `i` converts to a value of at least `2^31`, which the unsigned
comparison `index < 200` rejects, so the signed check adds nothing. -/
theorem safe_get_from_array_eq_internal_get (i : Int) (hi : InInt32 i)
    (m : Machine CursedInteger.Globals) (m2 : Machine OldFlawed.Globals) :
    CursedInteger.safe_get_from_array i m = CursedInteger.internal_get (to_unsigned i) m ∧
    OldFlawed.safe_get_from_array i m2 = OldFlawed.internal_get (to_unsigned i) m2 ∧
    (i < 0 → 2 ^ 31 ≤ to_unsigned i ∧ ¬ to_unsigned i < to_unsigned CursedInteger.array_size ∧
      CursedInteger.internal_get (to_unsigned i) m = (Except.ok 0, m) ∧
      OldFlawed.internal_get (to_unsigned i) m2 = (Except.ok 0, m2)) := by
  have hi' := hi
  unfold InInt32 int_min int_max at hi'
  have hge : ¬ (0 ≤ i ∧ i < 200) → 200 ≤ to_unsigned i := by
    intro h
    unfold to_unsigned
    omega
  refine ⟨?_, ?_, ?_⟩
  · by_cases h : 0 ≤ i ∧ i < 200
    · simp only [CursedInteger.safe_get_from_array, CursedInteger.array_size, ge_iff_le, h,
        and_self, if_true]
    · rw [CursedInteger.safe_get_of_out i m h,
        CursedInteger.internal_get_of_ge (to_unsigned i) m (hge h)]
  · by_cases h : 0 ≤ i ∧ i < 200
    · simp only [OldFlawed.safe_get_from_array, OldFlawed.array_size, ge_iff_le, h,
        and_self, if_true]
    · rw [OldFlawed.old_safe_get_of_out i m2 h,
        OldFlawed.old_internal_get_of_ge (to_unsigned i) m2 (hge h)]
  · intro hneg
    have h : ¬ (0 ≤ i ∧ i < 200) := by omega
    refine ⟨(to_unsigned_of_neg i hi hneg).1, ?_,
      CursedInteger.internal_get_of_ge (to_unsigned i) m (hge h),
      OldFlawed.old_internal_get_of_ge (to_unsigned i) m2 (hge h)⟩
    have h200 := hge h
    rw [show to_unsigned CursedInteger.array_size = 200 from to_unsigned_200]
    omega

/-- Instance of C13 at index -1 on the zero-initialised arrays. -/
theorem safe_get_from_array_eq_internal_get_witness :
    InInt32 (-1) ∧
    CursedInteger.safe_get_from_array (-1) CursedInteger.initial
      = CursedInteger.internal_get (to_unsigned (-1)) CursedInteger.initial ∧
    OldFlawed.safe_get_from_array (-1) OldFlawed.initial
      = OldFlawed.internal_get (to_unsigned (-1)) OldFlawed.initial :=
  ⟨by decide,
    (safe_get_from_array_eq_internal_get (-1) (by decide) CursedInteger.initial
      OldFlawed.initial).1,
    (safe_get_from_array_eq_internal_get (-1) (by decide) CursedInteger.initial
      OldFlawed.initial).2.1⟩

end CursedInt

namespace CursedInt

namespace OldFlawed

theorem experiment_run_neg (mode : OverflowMode) (b : Int) (m : Machine Globals) (h : b < 0) :
    cursed_int_experiment mode b m =
      (Except.error (Fault.thrown (CppException.invalid_argument "bad argument")),
        { m with out := m.out ++ [[Tok.str "Cursing ", Tok.num b]] }) := by
  simp [cursed_int_experiment, bind_run, println_run, throwCpp_run, h]

theorem experiment_run_high (mode : OverflowMode) (b : Int) (m : Machine Globals)
    (h2 : 2 ≤ b) (h : b + 100 ≤ 2147483647) :
    cursed_int_experiment mode b m =
      (Except.error (Fault.thrown (CppException.invalid_argument "b_plus_100>101")),
        { m with
          out := m.out ++ [[Tok.str "Cursing ", Tok.num b],
            [Tok.str "b+100 is ", Tok.num (b + 100)]] }) := by
  have h0 : ¬ b < 0 := by omega
  have hgt : b + 100 > 101 := by omega
  have hin : InInt32 (b + 100) := by unfold InInt32 int_min int_max; omega
  simp [cursed_int_experiment, bind_run, pure_run, println_run, throwCpp_run,
    add32_run_in mode b 100 _ hin, h0, hgt]

theorem experiment_run_small (mode : OverflowMode) (b : Int) (m : Machine Globals)
    (h : b = 0 ∨ b = 1) :
    cursed_int_experiment mode b m =
      (safe_get_from_array b >>= fun v => println [Tok.num v])
        { m with
          out := m.out ++ [[Tok.str "Cursing ", Tok.num b],
            [Tok.str "b+100 is ", Tok.num (b + 100)]] } := by
  have h0 : ¬ b < 0 := by omega
  have hgt : ¬ b + 100 > 101 := by omega
  have hin : InInt32 (b + 100) := by unfold InInt32 int_min int_max; omega
  simp [cursed_int_experiment, bind_run, pure_run, println_run,
    add32_run_in mode b 100 _ hin, h0, hgt]

theorem experiment_run_over_wrap (b : Int) (m : Machine Globals) (hb : InInt32 b)
    (h : b > 2147483647 - 100) :
    cursed_int_experiment OverflowMode.wrap b m =
      (Except.ok (),
        { m with
          out := m.out ++ [[Tok.str "Cursing ", Tok.num b],
            [Tok.str "b+100 is ", Tok.num (b + 100 - 4294967296)],
            [Tok.num 0]] }) := by
  unfold InInt32 int_min int_max at hb
  have h0 : ¬ b < 0 := by omega
  have hw : wrap32 (b + 100) = b + 100 - 4294967296 := by unfold wrap32; omega
  have hgt : ¬ b + 100 - 4294967296 > 101 := by omega
  have hout : ¬ (0 ≤ b ∧ b < 200) := by omega
  simp [cursed_int_experiment, bind_run, pure_run, println_run, add32_wrap_run,
    h0, hw, hgt, old_safe_get_of_out b _ hout]

/-- The accessor never throws `invalid_argument`. -/
theorem old_safe_get_not_invalid_argument (i : Int) (m : Machine Globals) (what : String) :
    (safe_get_from_array i m).1
      ≠ Except.error (Fault.thrown (CppException.invalid_argument what)) := by
  by_cases h : 0 ≤ i ∧ i < 200
  · obtain ⟨h0, h1⟩ := h
    have hu : to_unsigned i = i.toNat := to_unsigned_of_nonneg i h0 (by omega)
    have hn : i.toNat < 200 := by omega
    cases hv : m.globals.a2[i.toNat]? with
    | some v =>
      rw [old_safe_get_of_in i m v h0 h1 hv]
      simp
    | none =>
      simp [safe_get_from_array, internal_get, array_size, to_unsigned_200, h0, h1, hu, hn,
        bind_run, println_run, a2_at, hv]
  · rw [old_safe_get_of_out i m h]
    simp

end OldFlawed

end CursedInt

namespace CursedInt

/-- C11: as long as `b + 100` does not overflow (`b + 100 ≤ 2147483647`, where
wrapping and trapping addition both give the mathematical sum), the two checks
at the top of `cursed_int_experiment` (throw if `b < 0`, throw if
`b + 100 > 101`) let `b` through exactly when `b` is 0 or 1; with 32-bit
wraparound `b = 2147483647`, which is neither 0 nor 1, passes both checks: the
run prints -2147483549 as `b+100`, goes on to the accessor and returns. -/
theorem cursed_int_experiment_checks (mode : OverflowMode) (b : Int) (_hb : InInt32 b)
    (hsum : b + 100 ≤ 2147483647) (m : Machine OldFlawed.Globals) :
    ((∀ what, (OldFlawed.cursed_int_experiment mode b m).1
        ≠ Except.error (Fault.thrown (CppException.invalid_argument what))) ↔
      (b = 0 ∨ b = 1)) ∧
    OldFlawed.cursed_int_experiment OverflowMode.wrap 2147483647 m =
      (Except.ok (),
        { m with
          out := m.out ++ [[Tok.str "Cursing ", Tok.num 2147483647],
            [Tok.str "b+100 is ", Tok.num (-2147483549)],
            [Tok.num 0]] }) ∧
    (∀ what, (OldFlawed.cursed_int_experiment OverflowMode.wrap 2147483647 m).1
        ≠ Except.error (Fault.thrown (CppException.invalid_argument what))) := by
  have hover := OldFlawed.experiment_run_over_wrap 2147483647 m (by decide) (by decide)
  refine ⟨⟨?_, ?_⟩, ?_, ?_⟩
  · intro hpass
    by_cases hneg : b < 0
    · exact absurd (by rw [OldFlawed.experiment_run_neg mode b m hneg]) (hpass "bad argument")
    · by_cases h2 : 2 ≤ b
      · exact absurd (by rw [OldFlawed.experiment_run_high mode b m h2 hsum])
          (hpass "b_plus_100>101")
      · omega
  · intro hsmall what
    rw [OldFlawed.experiment_run_small mode b m hsmall, bind_run]
    have hna := OldFlawed.old_safe_get_not_invalid_argument b
      { m with
        out := m.out ++ [[Tok.str "Cursing ", Tok.num b],
          [Tok.str "b+100 is ", Tok.num (b + 100)]] } what
    rcases hrun : OldFlawed.safe_get_from_array b
      { m with
        out := m.out ++ [[Tok.str "Cursing ", Tok.num b],
          [Tok.str "b+100 is ", Tok.num (b + 100)]] } with ⟨r, m1⟩
    rw [hrun] at hna
    cases r with
    | ok x => simp [println_run]
    | error e =>
      intro h
      apply hna
      simp only [Except.error.injEq] at h ⊢
      exact h
  · rw [hover]
    norm_num
  · intro what
    rw [hover]
    simp

/-- Instance of C11 at `b = 1` with trapping addition on the zero-initialised
arrays. -/
theorem cursed_int_experiment_checks_witness :
    InInt32 1 ∧ (1 : Int) + 100 ≤ 2147483647 ∧
    ((∀ what, (OldFlawed.cursed_int_experiment OverflowMode.trap 1 OldFlawed.initial).1
        ≠ Except.error (Fault.thrown (CppException.invalid_argument what))) ↔
      ((1 : Int) = 0 ∨ (1 : Int) = 1)) :=
  ⟨by decide, by decide,
    (cursed_int_experiment_checks OverflowMode.trap 1 (by decide) (by decide)
      OldFlawed.initial).1⟩

end CursedInt

namespace CursedInt

namespace OldFlawed

theorem range_check_run_large (n : Nat) (m : Machine Globals) (h : 2 ^ 31 ≤ n) :
    inadvertent_range_check n m =
      (Except.error (Fault.thrown
        (CppException.invalid_argument "Negative numbers are not allowed")), m) := by
  have h1 : n ≥ 2 ^ 31 := h
  simp only [inadvertent_range_check, h1, if_true, bind_run, throwCpp_run]

theorem range_check_run_small (n : Nat) (m : Machine Globals) (h : n < 2 ^ 31) :
    inadvertent_range_check n m =
      (Except.ok (),
        { m with out := m.out ++ [[Tok.str "inadvertent_range_check: ", Tok.num n]] }) := by
  have h1 : ¬ n ≥ 2 ^ 31 := by omega
  simp only [inadvertent_range_check, h1, if_false, bind_run, pure_run, println_run]

theorem range_check2_run_large (n : Nat) (m : Machine Globals) (h : 2 ^ 31 ≤ n) :
    inadvertent_range_check2 n m =
      (Except.error (Fault.thrown
        (CppException.invalid_argument "Unsigned number is too large")), m) := by
  have h1 : n ≥ 2 ^ 31 := h
  simp only [inadvertent_range_check2, h1, if_true, bind_run, throwCpp_run]

theorem range_check2_run_small (n : Nat) (m : Machine Globals) (h : n < 2 ^ 31) :
    inadvertent_range_check2 n m =
      (Except.ok (),
        { m with out := m.out ++ [[Tok.str "inadvertent_range_check: ", Tok.num n]] }) := by
  have h1 : ¬ n ≥ 2 ^ 31 := by omega
  simp only [inadvertent_range_check2, h1, if_false, bind_run, pure_run, println_run]

theorem unobviously_sanitized_run_neg (mode : OverflowMode) (b : Int) (hb : InInt32 b)
    (m : Machine Globals) (h : b < 0) :
    unobviously_sanitized mode b m =
      (Except.error (Fault.thrown
        (CppException.invalid_argument "Unsigned number is too large")), m) := by
  unfold unobviously_sanitized
  rw [bind_run, range_check2_run_large _ m (to_unsigned_of_neg b hb h).1]

theorem unobviously_sanitized_run_nonneg (b : Int) (hb : InInt32 b) (m : Machine Globals)
    (h : 0 ≤ b) :
    unobviously_sanitized OverflowMode.wrap b m =
      (safe_get_from_array (wrap32 (b + 1)) >>= fun v => println [Tok.num v])
        { m with
          out := m.out ++ [[Tok.str "inadvertent_range_check: ", Tok.num b],
            [Tok.str "Going to get from array at ", Tok.num (wrap32 (b + 1))]] } := by
  obtain ⟨hlt, hu⟩ := to_unsigned_of_int32_nonneg b hb h
  have hc : ((to_unsigned b : Nat) : Int) = b := by rw [hu]; exact Int.toNat_of_nonneg h
  unfold unobviously_sanitized
  rw [bind_run, range_check2_run_small _ m hlt, hc]
  simp [bind_run, println_run, add32_wrap_run]

end OldFlawed

end CursedInt

namespace CursedInt

namespace OldFlawed

/-- Reading through the accessor and printing the value never ends with
`invalid_argument`. -/
theorem old_get_then_print_not_invalid_argument (i : Int) (m : Machine Globals)
    (what : String) :
    ((safe_get_from_array i >>= fun v => println [Tok.num v]) m).1
      ≠ Except.error (Fault.thrown (CppException.invalid_argument what)) := by
  have hna := old_safe_get_not_invalid_argument i m what
  rw [bind_run]
  rcases hrun : safe_get_from_array i m with ⟨r, m1⟩
  rw [hrun] at hna
  cases r with
  | ok x => simp [println_run]
  | error e =>
    intro h
    apply hna
    simp only [Except.error.injEq] at h ⊢
    exact h

end OldFlawed

/-- C12: `inadvertent_range_check` and `inadvertent_range_check2`, called with a
32-bit signed `b` converted to unsigned, throw `invalid_argument` if and only if
`b < 0`; so `unobviously_sanitized b` (wrapping addition) stops with that
exception, before printing or reading anything, exactly when `b < 0`, and for
`b ≥ 0` goes on to the accessor with index `b + 1` wrapped to 32 bits; for
`b = 2147483647` that index is -2147483648 and the read returns 0. -/
theorem inadvertent_range_checks (b : Int) (hb : InInt32 b)
    (m : Machine OldFlawed.Globals) :
    ((∃ what, (OldFlawed.inadvertent_range_check (to_unsigned b) m).1
        = Except.error (Fault.thrown (CppException.invalid_argument what))) ↔ b < 0) ∧
    ((∃ what, (OldFlawed.inadvertent_range_check2 (to_unsigned b) m).1
        = Except.error (Fault.thrown (CppException.invalid_argument what))) ↔ b < 0) ∧
    ((∃ what, (OldFlawed.unobviously_sanitized OverflowMode.wrap b m).1
        = Except.error (Fault.thrown (CppException.invalid_argument what))) ↔ b < 0) ∧
    (b < 0 →
      OldFlawed.unobviously_sanitized OverflowMode.wrap b m =
        (Except.error (Fault.thrown
          (CppException.invalid_argument "Unsigned number is too large")), m)) ∧
    (0 ≤ b →
      OldFlawed.unobviously_sanitized OverflowMode.wrap b m =
        (OldFlawed.safe_get_from_array (wrap32 (b + 1)) >>= fun v => println [Tok.num v])
          { m with
            out := m.out ++ [[Tok.str "inadvertent_range_check: ", Tok.num b],
              [Tok.str "Going to get from array at ", Tok.num (wrap32 (b + 1))]] }) ∧
    wrap32 (2147483647 + 1) = -2147483648 ∧
    OldFlawed.unobviously_sanitized OverflowMode.wrap 2147483647 m =
      (Except.ok (),
        { m with
          out := m.out ++ [[Tok.str "inadvertent_range_check: ", Tok.num 2147483647],
            [Tok.str "Going to get from array at ", Tok.num (-2147483648)],
            [Tok.num 0]] }) := by
  have hw : wrap32 (2147483647 + 1) = -2147483648 := by decide
  refine ⟨⟨?_, ?_⟩, ⟨?_, ?_⟩, ⟨?_, ?_⟩,
    OldFlawed.unobviously_sanitized_run_neg OverflowMode.wrap b hb m,
    OldFlawed.unobviously_sanitized_run_nonneg b hb m, hw, ?_⟩
  · rintro ⟨what, h⟩
    by_contra hneg
    rw [OldFlawed.range_check_run_small _ m
      (to_unsigned_of_int32_nonneg b hb (by omega)).1] at h
    simp at h
  · intro hneg
    exact ⟨_, by rw [OldFlawed.range_check_run_large _ m (to_unsigned_of_neg b hb hneg).1]⟩
  · rintro ⟨what, h⟩
    by_contra hneg
    rw [OldFlawed.range_check2_run_small _ m
      (to_unsigned_of_int32_nonneg b hb (by omega)).1] at h
    simp at h
  · intro hneg
    exact ⟨_, by rw [OldFlawed.range_check2_run_large _ m (to_unsigned_of_neg b hb hneg).1]⟩
  · rintro ⟨what, h⟩
    by_contra hneg
    rw [OldFlawed.unobviously_sanitized_run_nonneg b hb m (by omega)] at h
    exact OldFlawed.old_get_then_print_not_invalid_argument _ _ what h
  · intro hneg
    exact ⟨_, by rw [OldFlawed.unobviously_sanitized_run_neg OverflowMode.wrap b hb m hneg]⟩
  · rw [OldFlawed.unobviously_sanitized_run_nonneg 2147483647 (by decide) m (by decide), hw,
      bind_run, OldFlawed.old_safe_get_of_out (-2147483648) _ (by decide)]
    simp [println_run]

/-- Instance of C12 at the largest 32-bit value on the zero-initialised arrays. -/
theorem inadvertent_range_checks_witness :
    InInt32 2147483647 ∧
    ((∃ what, (OldFlawed.inadvertent_range_check2 (to_unsigned 2147483647)
        OldFlawed.initial).1
        = Except.error (Fault.thrown (CppException.invalid_argument what))) ↔
      (2147483647 : Int) < 0) :=
  ⟨by decide, (inadvertent_range_checks 2147483647 (by decide) OldFlawed.initial).2.1⟩

end CursedInt
